import Mathlib

/-!
Verification of the code-healer incident-remediation core.

This file shallowly embeds the decision pipeline of the repository
(`src/agent/failure_analyzer.py`, `src/agent/knowledge_retriever.py`,
`src/agent/remediation_coordinator.py`, `src/agent/feedback_system.py`,
shared data model in `src/agent/core_agent.py`) and proves or refutes the
specification claims about it.

Modelling conventions:
* Python floats are modelled as exact rationals (`ℚ`); the spec states all
  numeric claims as approximate, so exact rational arithmetic is the
  intended idealisation.
* Python regular expressions used by the analyzer all have the shape of an
  alternation of "chains" `lit₁.*lit₂.*…​.*litₖ` (after expanding nested
  alternations); a small exact matcher for that fragment is defined below.
* `datetime` values are modelled by their distance in days from "now" where
  only that distance is used by the code.
* md5/sha256 hashes used purely as dictionary keys are modelled by the
  hashed data itself (collision-free idealisation).
* Python's dynamic attribute/keyword-argument errors (AttributeError,
  TypeError) are modelled explicitly: dataclass field lists are embedded and
  attribute access or constructor calls outside those lists produce an
  `Except`-style error, exactly as the interpreter would raise.
-/

set_option maxRecDepth 4000

/-! ## Mini regular-expression fragment

Every pattern in `FailureAnalyzer._load_error_patterns` is (after expanding
alternations) an alternation of chains of literals separated by `.*`.
`re.search` over the lowercased text is existence of an ordered embedding of
some chain. The `(?i)` flags are redundant because the analyzer lowercases
the text first (`failure_analyzer.py` line 404). -/

/-- Chain of literals matched in order with arbitrary gaps (`a.*b.*c`). -/
abbrev Chain := List (List Char)

/-- Alternation of chains: the regex fragment used by the analyzer. -/
abbrev Rx := List Chain

/-- Lowercase a string to a character list (Python `str.lower()`). -/
def lc (s : String) : List Char := s.toList.map Char.toLower

/-- End index (start + length) of the earliest occurrence of `s` in `t`. -/
def findLitEnd (s : List Char) : List Char → Option Nat
  | [] => if s.isEmpty then some 0 else none
  | c :: rest =>
    if s.isPrefixOf (c :: rest) then some s.length
    else (findLitEnd s rest).map (· + 1)

/-- End index of the last occurrence of `s` in `t` (greedy `.*` semantics). -/
def findLitLastEnd (s : List Char) : List Char → Option Nat
  | [] => if s.isEmpty then some 0 else none
  | c :: rest =>
    match findLitLastEnd s rest with
    | some e => some (e + 1)
    | none => if s.isPrefixOf (c :: rest) then some s.length else none

/-- Earliest end of an ordered embedding of the chain in `t`; the greedy
earliest-first strategy is complete for existence. -/
def chainEarliestEnd : Chain → List Char → Option Nat
  | [], _ => some 0
  | s :: rest, t =>
    match findLitEnd s t with
    | none => none
    | some e => (chainEarliestEnd rest (t.drop e)).map (e + ·)

/-- Python `re.search(pattern, text)` truthiness for the fragment. -/
def rxSearch (rx : Rx) (t : List Char) : Bool :=
  rx.any fun c => (chainEarliestEnd c t).isSome

/-- Greedy end of a chain anchored at the start of `t`: the first literal is
a prefix, intermediate literals embed earliest-first, and the final literal
matches at its last compatible occurrence (greedy `.*` before it). -/
def chainAnchoredGreedyEnd (c : Chain) (t : List Char) : Option Nat :=
  match c with
  | [] => some 0
  | s :: rest =>
    if s.isPrefixOf t then
      match rest.getLast? with
      | none => some s.length
      | some lastLit =>
        let t' := t.drop s.length
        match chainEarliestEnd rest.dropLast t' with
        | none => none
        | some j =>
          match findLitLastEnd lastLit (t'.drop j) with
          | none => none
          | some e => some (s.length + j + e)
    else none

/-- First arm (in listed order, as Python alternation) matching at the
current position, with its greedy end. -/
def rxAnchoredEnd (rx : Rx) (t : List Char) : Option Nat :=
  rx.findSome? fun c => chainAnchoredGreedyEnd c t

/-- Fuelled scan for `len(re.findall(pattern, text))`: leftmost matches,
non-overlapping, advancing past each greedy match end. -/
def rxCountAux (rx : Rx) : List Char → Nat → Nat
  | _, 0 => 0
  | [], _ => 0
  | t@(_ :: rest), fuel + 1 =>
    match rxAnchoredEnd rx t with
    | some e => 1 + rxCountAux rx (t.drop (max e 1)) fuel
    | none => rxCountAux rx rest fuel

/-- Number of matches, as in `len(re.findall(pattern.pattern, error_text))`
(`failure_analyzer.py` line 417). -/
def rxCount (rx : Rx) (t : List Char) : Nat :=
  rxCountAux rx t (t.length + 1)

/-- Substring test (Python `needle in hay`). -/
def strContains (hay needle : String) : Bool :=
  (findLitEnd needle.toList hay.toList).isSome

/-! ## Shared data model (`core_agent.py`) -/

/-- Failure taxonomy (`core_agent.py` lines 16-21). -/
inductive FailureCategory
  | config | auth | resource | dependency | drift
deriving DecidableEq, Repr

/-- Fixability classification (`core_agent.py` lines 23-26). -/
inductive Fixability
  | auto | retry | investigate
deriving DecidableEq, Repr

/-- Solution source (`core_agent.py` lines 28-31). -/
inductive ResolutionSource
  | slack | vector_db | llm_analysis
deriving DecidableEq, Repr

/-- String lookup in a Python-dict modelled as an association list. -/
def dictGet (d : List (String × String)) (k : String) : Option String :=
  (d.find? fun p => p.1 == k).map (·.2)

/-- Normalized incident (`core_agent.py` lines 33-43).  `raw_event` and
`system_state` are kept abstract as association lists; `timestamp` is kept
abstract as an integer. -/
structure IncidentEvent where
  incident_id : String
  timestamp : Int
  source : String
  severity : String
  failure_type : String
  context : List (String × String)
  error_log : String
  system_state : List (String × String)
  raw_event : List (String × String)
deriving DecidableEq, Repr

/-- Root-cause classification (`core_agent.py` lines 45-55).  These are
exactly the fields of the `FailureAnalysis` dataclass; in particular there
is no `indicators`, `summary` or `requires_approval` field. -/
structure FailureAnalysis where
  incident_id : String
  primary_category : FailureCategory
  subcategory : String
  root_cause : String
  fixability : Fixability
  confidence : ℚ
  reasoning : String
  affected_components : List String
  recent_changes : List String
deriving DecidableEq, Repr

/-- Field names of the `FailureAnalysis` dataclass, for modelling dynamic
attribute access (`analysis.<name>` raises AttributeError off this list). -/
def failureAnalysisFields : List String :=
  ["incident_id", "primary_category", "subcategory", "root_cause",
   "fixability", "confidence", "reasoning", "affected_components",
   "recent_changes"]

/-- One proposed fix (`core_agent.py` lines 57-68).  `last_used` is modelled
as the number of days between the timestamp and "now" (the only use,
`remediation_coordinator.py` line 229, takes that difference). -/
structure ResolutionCandidate where
  resolution_id : String
  source : ResolutionSource
  description : String
  steps : List String
  confidence : ℚ
  success_rate : ℚ
  last_used : Option Nat
  environment_match : Bool
  code_changes : List String
  estimated_duration : Int
deriving DecidableEq, Repr

/-- Field names of the `ResolutionCandidate` dataclass (no defaults), for
modelling keyword-argument constructor calls. -/
def resolutionCandidateFields : List String :=
  ["resolution_id", "source", "description", "steps", "confidence",
   "success_rate", "last_used", "environment_match", "code_changes",
   "estimated_duration"]

/-- Outcome of a remediation attempt (`core_agent.py` lines 70-80). -/
structure RemediationResult where
  incident_id : String
  remediation_id : String
  action_taken : String
  outcome : String
  confidence_at_execution : ℚ
  resolution_time_seconds : Int
  human_intervention_required : Bool
  rollback_performed : Bool
  details : List (String × String)
deriving DecidableEq, Repr

/-! ## Failure analyzer (`failure_analyzer.py`) -/

/-- Predefined error pattern (`failure_analyzer.py` lines 15-22). -/
structure ErrorPattern where
  rx : Rx
  category : FailureCategory
  subcategory : String
  fixability : Fixability
  confidence_boost : ℚ
deriving DecidableEq, Repr

/-- Chain sugar: literals separated by `.*`. -/
def ch (ls : List String) : Chain := ls.map lc

/-- The sixteen predefined patterns of `_load_error_patterns`
(`failure_analyzer.py` lines 59-187), each regex expanded into the
alternation-of-chains fragment. -/
def error_patterns : List ErrorPattern :=
  [ -- (yaml|json|yml).*(syntax|parse|invalid|malformed|indent)
    ⟨[ch ["yaml", "syntax"], ch ["yaml", "parse"], ch ["yaml", "invalid"],
      ch ["yaml", "malformed"], ch ["yaml", "indent"],
      ch ["json", "syntax"], ch ["json", "parse"], ch ["json", "invalid"],
      ch ["json", "malformed"], ch ["json", "indent"],
      ch ["yml", "syntax"], ch ["yml", "parse"], ch ["yml", "invalid"],
      ch ["yml", "malformed"], ch ["yml", "indent"]],
     .config, "syntax_error", .auto, 0.20⟩,
    -- (secret|configmap|volume|pvc).*(not found|does not exist|missing)
    ⟨[ch ["secret", "not found"], ch ["secret", "does not exist"],
      ch ["secret", "missing"],
      ch ["configmap", "not found"], ch ["configmap", "does not exist"],
      ch ["configmap", "missing"],
      ch ["volume", "not found"], ch ["volume", "does not exist"],
      ch ["volume", "missing"],
      ch ["pvc", "not found"], ch ["pvc", "does not exist"],
      ch ["pvc", "missing"]],
     .config, "reference_error", .auto, 0.18⟩,
    -- (image|tag|docker).*(not found|pull.*failed|does not exist|401|403)
    ⟨[ch ["image", "not found"], ch ["image", "pull", "failed"],
      ch ["image", "does not exist"], ch ["image", "401"], ch ["image", "403"],
      ch ["tag", "not found"], ch ["tag", "pull", "failed"],
      ch ["tag", "does not exist"], ch ["tag", "401"], ch ["tag", "403"],
      ch ["docker", "not found"], ch ["docker", "pull", "failed"],
      ch ["docker", "does not exist"], ch ["docker", "401"],
      ch ["docker", "403"]],
     .config, "image_reference_error", .auto, 0.17⟩,
    -- (field|property|attribute).*(required|missing|invalid|unknown)
    ⟨[ch ["field", "required"], ch ["field", "missing"],
      ch ["field", "invalid"], ch ["field", "unknown"],
      ch ["property", "required"], ch ["property", "missing"],
      ch ["property", "invalid"], ch ["property", "unknown"],
      ch ["attribute", "required"], ch ["attribute", "missing"],
      ch ["attribute", "invalid"], ch ["attribute", "unknown"]],
     .config, "validation_error", .auto, 0.16⟩,
    -- (unauthorized|forbidden|access denied|authentication failed|401|403)
    ⟨[ch ["unauthorized"], ch ["forbidden"], ch ["access denied"],
      ch ["authentication failed"], ch ["401"], ch ["403"]],
     .auth, "permission_error", .auto, 0.15⟩,
    -- (token|credential|certificate|key).*(expired|invalid|revoked|not found)
    ⟨[ch ["token", "expired"], ch ["token", "invalid"],
      ch ["token", "revoked"], ch ["token", "not found"],
      ch ["credential", "expired"], ch ["credential", "invalid"],
      ch ["credential", "revoked"], ch ["credential", "not found"],
      ch ["certificate", "expired"], ch ["certificate", "invalid"],
      ch ["certificate", "revoked"], ch ["certificate", "not found"],
      ch ["key", "expired"], ch ["key", "invalid"],
      ch ["key", "revoked"], ch ["key", "not found"]],
     .auth, "expired_credentials", .auto, 0.17⟩,
    -- (rbac|role|permission|policy).*(denied|insufficient|missing)
    ⟨[ch ["rbac", "denied"], ch ["rbac", "insufficient"], ch ["rbac", "missing"],
      ch ["role", "denied"], ch ["role", "insufficient"], ch ["role", "missing"],
      ch ["permission", "denied"], ch ["permission", "insufficient"],
      ch ["permission", "missing"],
      ch ["policy", "denied"], ch ["policy", "insufficient"],
      ch ["policy", "missing"]],
     .auth, "rbac_error", .auto, 0.14⟩,
    -- (oomkilled|out of memory|memory limit|memory.*exceeded)
    ⟨[ch ["oomkilled"], ch ["out of memory"], ch ["memory limit"],
      ch ["memory", "exceeded"]],
     .resource, "memory_limit", .auto, 0.19⟩,
    -- (cpu.*throttl|cpu.*limit|resource.*quota|quota.*exceeded)
    ⟨[ch ["cpu", "throttl"], ch ["cpu", "limit"], ch ["resource", "quota"],
      ch ["quota", "exceeded"]],
     .resource, "compute_limit", .auto, 0.16⟩,
    -- (disk.*full|storage.*exceeded|space.*unavailable|no.*space)
    ⟨[ch ["disk", "full"], ch ["storage", "exceeded"],
      ch ["space", "unavailable"], ch ["no", "space"]],
     .resource, "storage_limit", .auto, 0.15⟩,
    -- (pending|unschedulable|insufficient.*resources|node.*capacity)
    ⟨[ch ["pending"], ch ["unschedulable"], ch ["insufficient", "resources"],
      ch ["node", "capacity"]],
     .resource, "scheduling_failure", .auto, 0.13⟩,
    -- (connection.*timeout|network.*timeout|dial.*timeout|i/o timeout)
    ⟨[ch ["connection", "timeout"], ch ["network", "timeout"],
      ch ["dial", "timeout"], ch ["i/o timeout"]],
     .dependency, "network_timeout", .retry, 0.12⟩,
    -- (connection.*refused|connection.*reset|network.*unreachable)
    ⟨[ch ["connection", "refused"], ch ["connection", "reset"],
      ch ["network", "unreachable"]],
     .dependency, "network_failure", .retry, 0.11⟩,
    -- (service.*unavailable|endpoint.*unreachable|502|503|504)
    ⟨[ch ["service", "unavailable"], ch ["endpoint", "unreachable"],
      ch ["502"], ch ["503"], ch ["504"]],
     .dependency, "service_unavailable", .retry, 0.10⟩,
    -- (dns.*resolution|name.*not.*resolved|no such host)
    ⟨[ch ["dns", "resolution"], ch ["name", "not", "resolved"],
      ch ["no such host"]],
     .dependency, "dns_failure", .retry, 0.09⟩,
    -- (state.*inconsistent|drift.*detected|configuration.*drift)
    ⟨[ch ["state", "inconsistent"], ch ["drift", "detected"],
      ch ["configuration", "drift"]],
     .drift, "state_inconsistency", .investigate, 0.08⟩,
    -- (version.*mismatch|api.*version|schema.*migration)
    ⟨[ch ["version", "mismatch"], ch ["api", "version"],
      ch ["schema", "migration"]],
     .drift, "version_drift", .investigate, 0.07⟩ ]

/-- Result dict built by `_pattern_match_analysis` (the fields the rest of
the pipeline reads). -/
structure PatternResult where
  category : FailureCategory
  subcategory : String
  fixability : Fixability
  confidence : ℚ
deriving DecidableEq, Repr

/-- Confidence of one matched pattern (`failure_analyzer.py` lines 414-427):
`0.6 + boost`, plus `min(0.1, match_count*0.02)` for repeated matches, plus
`0.05` platform bonuses keyed on the incident source and the pattern
subcategory. -/
def patternConfidence (source : String) (p : ErrorPattern) (count : Nat) : ℚ :=
  0.6 + p.confidence_boost
    + (if count > 1 then min 0.1 ((count : ℚ) * 0.02) else 0)
    + (if source == "github_actions" && strContains p.subcategory "workflow"
        then 0.05 else 0)
    + (if source == "kubernetes" && strContains p.subcategory "pod"
        then 0.05 else 0)

/-- Fold step over the pattern list: keep the strictly best confidence,
starting from `best_confidence = 0.0` (`failure_analyzer.py` lines 406-433). -/
def patternStep (source : String) (t : List Char)
    (best : Option ErrorPattern × ℚ) (p : ErrorPattern) :
    Option ErrorPattern × ℚ :=
  if rxSearch p.rx t then
    if patternConfidence source p (rxCount p.rx t) > best.2 then
      (some p, patternConfidence source p (rxCount p.rx t))
    else best
  else best

/-- `FailureAnalyzer._pattern_match_analysis` (`failure_analyzer.py` lines
401-457): all patterns are tested against the lowercased text and the one
with the highest confidence wins; `none` when nothing matches. -/
def pattern_match_analysis (source : String) (errorText : String) :
    Option PatternResult :=
  let t := lc errorText
  let best := error_patterns.foldl (patternStep source t) (none, 0)
  match best with
  | (some p, conf) => some ⟨p.category, p.subcategory, p.fixability, conf⟩
  | (none, _) => none

/-- Keyword test of the fallback classifier: `any(word in error_lower for
word in ws)` (`failure_analyzer.py` lines 801-816). -/
def anyKeyword (errorLower : List Char) (ws : List String) : Bool :=
  ws.any fun w => (findLitEnd (lc w) errorLower).isSome

/-- Keyword table of the fallback classifier (`failure_analyzer.py` lines
801-825): (category, subcategory, fixability, confidence). -/
def fallback_keyword_class (e : List Char) :
    FailureCategory × String × Fixability × ℚ :=
  if anyKeyword e ["yaml", "json", "syntax", "parse"] then
    (FailureCategory.config, "syntax_error", Fixability.auto, (0.6 : ℚ))
  else if anyKeyword e ["unauthorized", "forbidden", "auth"] then
    (FailureCategory.auth, "permission_error", Fixability.auto, 0.55)
  else if anyKeyword e ["memory", "oom", "resource"] then
    (FailureCategory.resource, "resource_limit", Fixability.auto, 0.5)
  else if anyKeyword e ["timeout", "connection", "network"] then
    (FailureCategory.dependency, "network_failure", Fixability.retry, 0.45)
  else
    (FailureCategory.dependency, "unknown_failure", Fixability.investigate, 0.3)

/-- `FailureAnalyzer._create_fallback_analysis` (`failure_analyzer.py` lines
797-837): keyword-driven conservative classification. -/
def create_fallback_analysis (incident : IncidentEvent) : FailureAnalysis :=
  let k := fallback_keyword_class (lc incident.error_log)
  { incident_id := incident.incident_id
    primary_category := k.1
    subcategory := k.2.1
    root_cause := "Fallback analysis - unable to classify failure automatically"
    fixability := k.2.2.1
    confidence := k.2.2.2
    reasoning := "Fallback rule-based analysis due to LLM unavailability"
    affected_components := []
    recent_changes := [] }

/-- Python runtime errors surfaced by the embedding. -/
inductive PyError
  | typeError | attributeError | valueError
deriving DecidableEq, Repr

/-- Enhanced log text for the three known platforms: an f-string built from
the raw event that always embeds the original `incident.error_log`
(`failure_analyzer.py` lines 249-369).  The surrounding boilerplate is
modelled as the concatenation of the interpolated raw-event values around
the error log; none of the claims depends on its exact layout. -/
def enhancedLogs (header : String) (incident : IncidentEvent) : String :=
  header ++ (String.intercalate " "
    (incident.raw_event.map fun p => p.1 ++ "=" ++ p.2))
    ++ " === ERROR === " ++ incident.error_log

/-- `FailureAnalyzer._fetch_detailed_logs` (`failure_analyzer.py` lines
234-247): platform-specific enhancement, defaulting to the raw error log;
the GitHub/ArgoCD branches fall back to the error log when the raw event
lacks the expected key. -/
def fetch_detailed_logs (incident : IncidentEvent) : String :=
  if incident.source == "github_actions" then
    if (dictGet incident.raw_event "workflow_run").isSome then
      enhancedLogs "GITHUB " incident
    else incident.error_log
  else if incident.source == "argocd" then
    if (dictGet incident.raw_event "application").isSome then
      enhancedLogs "ARGOCD " incident
    else incident.error_log
  else if incident.source == "kubernetes" then
    enhancedLogs "KUBERNETES " incident
  else incident.error_log

/-- Arity of `FailureAnalyzer._llm_analysis(self, incident, detailed_logs=None)`
(`failure_analyzer.py` line 459): at most two positional arguments after
`self`. -/
def llm_analysis_max_positional : Nat := 2

/-- Calling a Python method with more positional arguments than its
signature accepts raises `TypeError` at the call site. -/
def checkCallArity (maxPositional given : Nat) : Except PyError Unit :=
  if given ≤ maxPositional then .ok () else .error .typeError

/-- Result dict of `_llm_analysis` when it succeeds. -/
structure LlmAnalysisResult where
  category : FailureCategory
  subcategory : String
  root_cause : String
  fixability : Fixability
  confidence : ℚ
  reasoning : String
deriving DecidableEq, Repr

/-- Confidence clamping in `_parse_llm_response` (`failure_analyzer.py`
lines 704-707): out-of-range values are clamped to `[0, 1]`. -/
def parse_llm_response_confidence (raw : ℚ) : ℚ :=
  if 0 ≤ raw ∧ raw ≤ 1 then raw else max 0 (min 1 raw)

/-- Detailed-log confidence boost in `_llm_analysis` (`failure_analyzer.py`
line 478): `min(0.95, confidence + 0.1)` when detailed logs were used. -/
def llm_analysis_boosted_confidence (conf : ℚ) : ℚ :=
  min 0.95 (conf + 0.1)

/-- `FailureAnalyzer._combine_analyses` (`failure_analyzer.py` lines
737-795): fusion of the pattern and model analyses. -/
def combine_analyses (incident : IncidentEvent)
    (pattern_match : Option PatternResult)
    (llm_analysis : Option LlmAnalysisResult) : FailureAnalysis :=
  match pattern_match, llm_analysis with
  | some pm, some la =>
    let combined_confidence :=
      if pm.category = la.category then
        min (pm.confidence * 0.4 + la.confidence * 0.6 + 0.1) 1
      else la.confidence * 0.8
    { incident_id := incident.incident_id
      primary_category := la.category
      subcategory := la.subcategory
      root_cause := la.root_cause
      fixability := la.fixability
      confidence := combined_confidence
      reasoning := "LLM analysis + Pattern match: " ++ la.reasoning
      affected_components := []
      recent_changes := [] }
  | none, some la =>
    { incident_id := incident.incident_id
      primary_category := la.category
      subcategory := la.subcategory
      root_cause := la.root_cause
      fixability := la.fixability
      confidence := la.confidence
      reasoning := "LLM analysis: " ++ la.reasoning
      affected_components := []
      recent_changes := [] }
  | some pm, none =>
    { incident_id := incident.incident_id
      primary_category := pm.category
      subcategory := pm.subcategory
      root_cause := "Pattern-based classification"
      fixability := pm.fixability
      confidence := pm.confidence
      reasoning := "Pattern matching"
      affected_components := []
      recent_changes := [] }
  | none, none => create_fallback_analysis incident

/-- Body of the live `analyze_failure` (the second definition, which shadows
the first: `failure_analyzer.py` lines 371-399).  After fetching logs and
running pattern matching, line 385 calls
`self._llm_analysis(incident, detailed_logs, pattern_analysis)` with three
positional arguments although `_llm_analysis` accepts at most two, which
raises `TypeError`; the `.error` value models that exception reaching the
method's `except` handler.  The continuation after the call is included for
completeness but is unreachable. -/
def analyze_failure_body (apiKeyConfigured : Bool) (incident : IncidentEvent) :
    Except PyError FailureAnalysis := do
  let detailed_logs := fetch_detailed_logs incident
  let pattern_analysis := pattern_match_analysis incident.source detailed_logs
  let _ ← checkCallArity llm_analysis_max_positional 3
  -- unreachable: with no API key `_llm_analysis` would return None
  let llm : Option LlmAnalysisResult := if apiKeyConfigured then none else none
  let _ := detailed_logs
  return combine_analyses incident pattern_analysis llm

/-- `FailureAnalyzer.analyze_failure` (`failure_analyzer.py` lines 371-399):
any exception in the body is caught and the keyword fallback analysis is
returned (line 399). -/
def analyze_failure (apiKeyConfigured : Bool) (incident : IncidentEvent) :
    FailureAnalysis :=
  match analyze_failure_body apiKeyConfigured incident with
  | .ok a => a
  | .error _ => create_fallback_analysis incident

/-! ## Knowledge retriever (`knowledge_retriever.py`) -/

/-- Value string of a `FailureCategory` (Python `category.value`). -/
def categoryValue : FailureCategory → String
  | .config => "config"
  | .auth => "auth"
  | .resource => "resource"
  | .dependency => "dependency"
  | .drift => "drift"

/-- Default confidence baselines (`knowledge_retriever.py` lines 77-81). -/
def confidence_baseline : ResolutionSource → ℚ
  | .slack => 0.90
  | .vector_db => 0.80
  | .llm_analysis => 0.65

/-- Solution extracted from chat history (`knowledge_retriever.py` lines
28-39); the timestamp is modelled as days before "now". -/
structure SlackSolution where
  message_id : String
  channel : String
  author : String
  timestamp : Nat
  solution_text : String
  code_blocks : List String
  thread_context : List String
  social_proof_score : ℚ
  relevance_score : ℚ
deriving DecidableEq, Repr

/-- Result from the vector index (`knowledge_retriever.py` lines 17-26);
`last_applied` is modelled as days before "now". -/
structure VectorSearchResult where
  incident_id : String
  similarity_score : ℚ
  resolution_steps : List String
  success_rate : ℚ
  environment : String
  last_applied : Nat
  metadata : List (String × String)
deriving DecidableEq, Repr

/-- Parsed model-generated solution dict; `_validate_solution_format`
(`knowledge_retriever.py` lines 523-526) only checks that the four required
keys are present, so each is an `Option`. -/
structure LlmSolutionDict where
  description : Option String
  steps : Option (List String)
  confidence : Option ℚ
  estimated_duration : Option Int
deriving DecidableEq, Repr

/-- `KnowledgeRetriever._validate_solution_format`: presence of the four
required fields; the value ranges are not checked. -/
def validate_solution_format (s : LlmSolutionDict) : Bool :=
  s.description.isSome && s.steps.isSome && s.confidence.isSome &&
    s.estimated_duration.isSome

/-- `KnowledgeRetriever._parse_llm_solutions` (`knowledge_retriever.py`
lines 506-521): keep the solutions that pass format validation. -/
def parse_llm_solutions (sols : List LlmSolutionDict) : List LlmSolutionDict :=
  sols.filter validate_solution_format

/-- Resolution ids are sha256 hashes of the source id salted with the
current time (`knowledge_retriever.py` lines 709-713); they are used only
as opaque keys and are modelled by the source id itself. -/
def generate_resolution_id (source_id : String) : String := source_id

/-- `KnowledgeRetriever._calculate_social_proof` (`knowledge_retriever.py`
lines 285-306). -/
def calculate_social_proof (threadCount codeBlockCount : Nat)
    (authorIsAdmin : Bool) : ℚ :=
  let score : ℚ := 10 + min ((threadCount : ℚ) * 2) 20
      + (if authorIsAdmin then 15 else 0) + min ((codeBlockCount : ℚ) * 5) 25
  min (score / 100) 1

/-- `KnowledgeRetriever._slack_to_candidate` (`knowledge_retriever.py` lines
580-621).  The body cannot raise, so the surrounding try/except never
yields `None`. -/
def slack_to_candidate (s : SlackSolution) : Option ResolutionCandidate :=
  let steps := s.code_blocks.map (fun c => "Execute: " ++ c)
      ++ (if s.solution_text ≠ "" then ["Context: " ++ s.solution_text] else [])
  let confidence := min (confidence_baseline .slack
      + s.social_proof_score * 0.05 + s.relevance_score * 0.01) 0.98
  some { resolution_id := generate_resolution_id s.message_id
         source := .slack
         description := "Slack solution from #" ++ s.channel
         steps := steps
         confidence := confidence
         success_rate := 0.95
         last_used := some s.timestamp
         environment_match := true
         code_changes := []
         estimated_duration := 10 }

/-- `KnowledgeRetriever._vector_to_candidate` (`knowledge_retriever.py`
lines 623-659), parametrised by the incident's environment. -/
def vector_to_candidate (incidentEnv : Option String)
    (v : VectorSearchResult) : Option ResolutionCandidate :=
  let confidence := min (confidence_baseline .vector_db
      + (v.similarity_score - 0.75) * 0.2 + (v.success_rate - 0.7) * 0.1) 0.95
  let environment_match := (incidentEnv == some v.environment)
      || (v.environment == "all")
  some { resolution_id := generate_resolution_id v.incident_id
         source := .vector_db
         description := "Solution from similar incident"
         steps := v.resolution_steps
         confidence := confidence
         success_rate := v.success_rate
         last_used := some v.last_applied
         environment_match := environment_match
         code_changes := []
         estimated_duration := 15 }

/-- `KnowledgeRetriever._llm_to_candidate` (`knowledge_retriever.py` lines
661-690): the self-reported confidence is capped at `0.8` and at the source
baseline, but it is not clamped from below.  A missing key raises KeyError,
caught by the handler returning `None`. -/
def llm_to_candidate (incident_id : String) (s : LlmSolutionDict) :
    Option ResolutionCandidate :=
  match s.description, s.steps, s.confidence, s.estimated_duration with
  | some desc, some steps, some conf, some dur =>
    let llm_confidence := min conf 0.8
    let confidence := min (confidence_baseline .llm_analysis) llm_confidence
    some { resolution_id := generate_resolution_id ("llm-" ++ incident_id)
           source := .llm_analysis
           description := desc
           steps := steps
           confidence := confidence
           success_rate := 0.6
           last_used := none
           environment_match := true
           code_changes := []
           estimated_duration := dur }
  | _, _, _, _ => none

/-- Cached model solution record built by `_store_llm_solution`
(`knowledge_retriever.py` lines 750-768). -/
structure CachedLlmSolution where
  incident_id : String
  signature : String
  category : String
  subcategory : String
  confidence : ℚ
  resolution_steps : List String
  fix_actions : List String
  estimated_fix_time : String
  reuse_count : Nat
  success_rate : ℚ
  tags : List String
  timestamp : Nat
deriving DecidableEq, Repr

/-- Dynamic access `analysis.indicators` (`knowledge_retriever.py` line
899): `indicators` is not a field of the `FailureAnalysis` dataclass
(`core_agent.py` lines 45-55), so the access raises AttributeError. -/
def getAnalysisIndicators (a : FailureAnalysis) :
    Except PyError (List String) :=
  let _ := a
  if failureAnalysisFields.contains "indicators" then .ok []
  else .error .attributeError

/-- Try-block body of `_calculate_solution_similarity`
(`knowledge_retriever.py` lines 885-914): 40% category match, 30%
subcategory match, 20% indicator overlap, 10% confidence proximity. -/
def calculate_solution_similarity_body (a : FailureAnalysis)
    (sol : CachedLlmSolution) : Except PyError ℚ := do
  let s1 : ℚ := if categoryValue a.primary_category == sol.category then 0.4 else 0
  let s2 : ℚ := if a.subcategory == sol.subcategory then 0.3 else 0
  let inds ← getAnalysisIndicators a
  let current := inds.dedup
  let tags := sol.tags.dedup
  let s3 : ℚ :=
    if current ≠ [] ∧ tags ≠ [] then
      let overlap := (current.filter tags.contains).length
      let total := (current ++ tags.filter (fun t => ¬ current.contains t)).length
      if total > 0 then 0.2 * ((overlap : ℚ) / (total : ℚ)) else 0
    else 0
  let s4 : ℚ := 0.1 * (1 - |a.confidence - sol.confidence|)
  return min (s1 + s2 + s3 + s4) 1

/-- `KnowledgeRetriever._calculate_solution_similarity`: the AttributeError
from `analysis.indicators` is caught at line 912 and `0.0` returned. -/
def calculate_solution_similarity (a : FailureAnalysis)
    (sol : CachedLlmSolution) : ℚ :=
  match calculate_solution_similarity_body a sol with
  | .ok q => q
  | .error _ => 0

/-- Cached solution paired with its similarity score
(`solution_copy['similarity_score']`, `knowledge_retriever.py` line 870). -/
structure ScoredCachedSolution where
  sol : CachedLlmSolution
  similarity_score : ℚ
deriving DecidableEq, Repr

/-- `KnowledgeRetriever.retrieve_similar_llm_solutions`
(`knowledge_retriever.py` lines 855-883): filter the cache by similarity
`> 0.7`, sort by similarity × success rate descending, truncate. -/
def retrieve_similar_llm_solutions (cache : List CachedLlmSolution)
    (a : FailureAnalysis) (maxResults : Nat) : List ScoredCachedSolution :=
  let similar := cache.filterMap fun sol =>
    let sim := calculate_solution_similarity a sol
    if sim > 0.7 then some ⟨sol, sim⟩ else none
  (similar.mergeSort fun x y =>
      decide (y.similarity_score * y.sol.success_rate ≤
        x.similarity_score * x.sol.success_rate)).take maxResults

/-- Keyword arguments of the `ResolutionCandidate(...)` call in
`_cached_llm_to_candidate` (`knowledge_retriever.py` lines 550-574). -/
def cachedCandidateCallKwargs : List String :=
  ["resolution_id", "source", "description", "steps", "confidence",
   "estimated_duration", "success_indicators", "rollback_instructions",
   "metadata"]

/-- A Python dataclass constructor call succeeds iff every keyword argument
is a declared field and (absent defaults) every field receives an argument;
otherwise it raises TypeError. -/
def dataclassCallOk (fields kwargs : List String) : Bool :=
  kwargs.all fields.contains && fields.all kwargs.contains

/-- Reuse-boosted confidence computed by `_cached_llm_to_candidate`
(`knowledge_retriever.py` lines 544-548): baseline plus similarity and
success boosts, capped at `0.95`. -/
def cached_llm_confidence (similarity success_rate : ℚ) : ℚ :=
  min (confidence_baseline .llm_analysis + similarity * 0.1
    + success_rate * 0.05) 0.95

/-- `KnowledgeRetriever._cached_llm_to_candidate` (`knowledge_retriever.py`
lines 528-578).  The `ResolutionCandidate(...)` call passes keyword
arguments `success_indicators`, `rollback_instructions` and `metadata` that
are not dataclass fields and omits the required `success_rate`, `last_used`,
`environment_match` and `code_changes`, so it raises TypeError, caught at
line 576 with `None` returned; the success branch (never taken) is given
best-effort field values. -/
def cached_llm_to_candidate (scored : ScoredCachedSolution) :
    Option ResolutionCandidate :=
  let sol := scored.sol
  let steps := if sol.resolution_steps ≠ [] then sol.resolution_steps
      else sol.fix_actions.map (fun a => "Apply fix: " ++ a)
  let confidence := cached_llm_confidence scored.similarity_score sol.success_rate
  if dataclassCallOk resolutionCandidateFields cachedCandidateCallKwargs then
    some { resolution_id := generate_resolution_id (sol.signature.take 16)
           source := .llm_analysis
           description := "Cached LLM solution"
           steps := steps
           confidence := confidence
           success_rate := sol.success_rate
           last_used := none
           environment_match := true
           code_changes := []
           estimated_duration := 0 }
  else none

/-- Steps-content dedup key: md5 of the JSON dump of the step list
(`knowledge_retriever.py` lines 698-701), modelled by the step list itself
(collision-free idealisation). -/
def dedupSeen : List (List String) → List ResolutionCandidate →
    List ResolutionCandidate
  | _, [] => []
  | seen, c :: rest =>
    if seen.contains c.steps then dedupSeen seen rest
    else c :: dedupSeen (c.steps :: seen) rest

/-- `KnowledgeRetriever._deduplicate_candidates` (`knowledge_retriever.py`
lines 692-707): keep the first candidate of each steps-hash. -/
def deduplicate_candidates (cs : List ResolutionCandidate) :
    List ResolutionCandidate :=
  dedupSeen [] cs

/-- Outcome of one concurrently queried source: either its result list, or
an exception converted to an empty partial result by the
`return_exceptions=True` gather (`knowledge_retriever.py` lines 110-124). -/
inductive SourceResult (α : Type)
  | ok (items : List α)
  | raised
deriving DecidableEq, Repr

/-- List delivered by a source (an exception yields the empty list). -/
def sourceItems {α : Type} : SourceResult α → List α
  | .ok items => items
  | .raised => []

/-- Descending-confidence comparison used by
`candidates.sort(key=lambda x: x.confidence, reverse=True)`. -/
def confDesc (a b : ResolutionCandidate) : Bool :=
  decide (b.confidence ≤ a.confidence)

/-- `KnowledgeRetriever.retrieve_solutions` (`knowledge_retriever.py` lines
85-157): cached reuse first, then the three fanned-out sources (each
exception isolated to an empty partial result), conversion to candidates,
dedup, and a stable sort by confidence descending.  The model-generation
gate `analysis.confidence > 0.8` (line 241) yields no model solutions for
high-confidence analyses. -/
def retrieve_solutions (cache : List CachedLlmSolution)
    (incidentEnv : Option String) (incident_id : String)
    (analysis : FailureAnalysis) (slack : SourceResult SlackSolution)
    (vector : SourceResult VectorSearchResult)
    (llm : SourceResult LlmSolutionDict) : List ResolutionCandidate :=
  let similar := retrieve_similar_llm_solutions cache analysis 3
  let llmSols := if analysis.confidence > 0.8 then []
      else parse_llm_solutions (sourceItems llm)
  let candidates := similar.filterMap cached_llm_to_candidate
      ++ (sourceItems slack).filterMap slack_to_candidate
      ++ (sourceItems vector).filterMap (vector_to_candidate incidentEnv)
      ++ llmSols.filterMap (llm_to_candidate incident_id)
  (deduplicate_candidates candidates).mergeSort confDesc

/-! ## Remediation coordinator (`remediation_coordinator.py`) -/

/-- Typed remediation actions (`remediation_coordinator.py` lines 18-27). -/
inductive RemediationAction
  | github_rerun | github_update_config | github_update_secret
  | argocd_sync | argocd_update_manifest
  | kubernetes_scale | kubernetes_restart
  | wait_and_retry | escalate_to_human
deriving DecidableEq, Repr

/-- Value string of a remediation action (Python `action.value`). -/
def actionValue : RemediationAction → String
  | .github_rerun => "github_rerun"
  | .github_update_config => "github_update_config"
  | .github_update_secret => "github_update_secret"
  | .argocd_sync => "argocd_sync"
  | .argocd_update_manifest => "argocd_update_manifest"
  | .kubernetes_scale => "kubernetes_scale"
  | .kubernetes_restart => "kubernetes_restart"
  | .wait_and_retry => "wait_and_retry"
  | .escalate_to_human => "escalate_to_human"

/-- Approval status (`remediation_coordinator.py` lines 29-33). -/
inductive ApprovalStatus
  | not_required | pending | approved | rejected
deriving DecidableEq, Repr

/-- Remediation plan (`remediation_coordinator.py` lines 35-46); `metadata`
is kept abstract. -/
structure RemediationPlan where
  resolution_id : String
  actions : List RemediationAction
  approval_required : Bool
  approval_status : ApprovalStatus
  risk_level : String
  rollback_plan : List String
  estimated_duration : Int
  prerequisites : List String
deriving DecidableEq, Repr

/-- Default environment confidence thresholds
(`remediation_coordinator.py` lines 76-81). -/
def confidence_thresholds : List (String × ℚ) :=
  [("production", 0.92), ("staging", 0.85), ("development", 0.75),
   ("default", 0.85)]

/-- `RemediationCoordinator._get_min_confidence_threshold`
(`remediation_coordinator.py` lines 1177-1182): environment lookup with the
`"default"` fallback (a `None` environment also falls back). -/
def get_min_confidence_threshold (environment : Option String) : ℚ :=
  match environment.bind (fun e => (confidence_thresholds.find? (·.1 == e)).map (·.2)) with
  | some q => q
  | none => 0.85

/-- Default risk factors (`remediation_coordinator.py` lines 83-89). -/
def risk_factor_production_environment : ℚ := 0.3
def risk_factor_cross_service_impact : ℚ := 0.25
def risk_factor_config_changes : ℚ := 0.15
def risk_factor_resource_scaling : ℚ := 0.20
def risk_factor_credential_updates : ℚ := 0.10

/-- Source weights in candidate scoring
(`remediation_coordinator.py` lines 216-220). -/
def source_weight : ResolutionSource → ℚ
  | .slack => 1.0
  | .vector_db => 0.9
  | .llm_analysis => 0.7

/-- `RemediationCoordinator._calculate_candidate_score`
(`remediation_coordinator.py` lines 205-233): `0.6*confidence +
0.2*source_weight + 0.1*success_rate + 0.05*environment_match +
0.05*recency`.  Deprecation state is not an input: the scoring never
consults the feedback system's deprecation flags. -/
def calculate_candidate_score (candidate : ResolutionCandidate) : ℚ :=
  candidate.confidence * 0.6
    + source_weight candidate.source * 0.2
    + candidate.success_rate * 0.1
    + (if candidate.environment_match then 0.05 else 0)
    + (match candidate.last_used with
       | some days => max 0 (1 - (days : ℚ) / 90) * 0.05
       | none => 0)

/-- Fold selecting the highest-scored candidate; Python sorts the scored
list descending with a stable sort and takes the head, which is the
earliest candidate of maximal score. -/
def bestByScore (c0 : ResolutionCandidate) (cs : List ResolutionCandidate) :
    ResolutionCandidate :=
  cs.foldl (fun best c =>
    if calculate_candidate_score c > calculate_candidate_score best then c
    else best) c0

/-- `RemediationCoordinator._select_resolution`
(`remediation_coordinator.py` lines 174-203): keep candidates whose
confidence meets the environment threshold with `analysis.fixability ==
AUTO`, then pick the best score; `None` when no candidate survives. -/
def select_resolution (environment : Option String)
    (analysis : FailureAnalysis) (candidates : List ResolutionCandidate) :
    Option ResolutionCandidate :=
  let min_confidence := get_min_confidence_threshold environment
  let viable := candidates.filter fun c =>
    decide (min_confidence ≤ c.confidence) && decide (analysis.fixability = .auto)
  match viable with
  | [] => none
  | c :: cs => some (bestByScore c cs)

/-- `RemediationCoordinator._determine_remediation_actions`
(`remediation_coordinator.py` lines 272-308). -/
def determine_remediation_actions (source : String)
    (analysis : FailureAnalysis) : List RemediationAction :=
  let actions : List RemediationAction :=
    if source == "github_actions" then
      if analysis.primary_category = .config then
        if strContains (analysis.subcategory.map Char.toLower) "syntax" then
          [.github_update_config]
        else if strContains (analysis.subcategory.map Char.toLower) "secret" then
          [.github_update_secret]
        else []
      else if analysis.primary_category = .dependency then
        [.wait_and_retry, .github_rerun]
      else [.github_rerun]
    else if source == "argocd" then
      (if analysis.primary_category = .config then [.argocd_update_manifest]
       else []) ++ [.argocd_sync]
    else if source == "kubernetes" then
      if analysis.primary_category = .resource then
        if strContains (analysis.subcategory.map Char.toLower) "memory" then
          [.kubernetes_scale]
        else [.kubernetes_restart]
      else []
    else []
  if actions = [] then [.escalate_to_human] else actions

/-- `RemediationCoordinator._assess_risk_level`
(`remediation_coordinator.py` lines 310-352). -/
def assess_risk_level (environment : Option String)
    (analysis : FailureAnalysis) (resolution : ResolutionCandidate)
    (actions : List RemediationAction) : String :=
  let envRisk : ℚ :=
    if environment == some "production" then risk_factor_production_environment
    else 0
  let actionRisk : ℚ := (actions.map fun a =>
    if a = .kubernetes_scale then risk_factor_resource_scaling
    else if a = .github_update_config then risk_factor_config_changes
    else if a = .github_update_secret then risk_factor_credential_updates
    else 0).sum
  let confidenceRisk := (1 - resolution.confidence) * 0.2
  let crossService : ℚ :=
    if analysis.affected_components.length > 1 then
      risk_factor_cross_service_impact
    else 0
  let risk_score := envRisk + actionRisk + confidenceRisk + crossService
  if risk_score ≥ 0.7 then "high"
  else if risk_score ≥ 0.4 then "medium"
  else "low"

/-- `RemediationCoordinator._requires_approval`
(`remediation_coordinator.py` lines 354-378) with the default approval
rules.  The scaling-action clause iterates over the empty list literal
`[]` (line 375) and is therefore never taken. -/
def requires_approval (environment : Option String)
    (resolution : ResolutionCandidate) (risk_level : String) : Bool :=
  if environment == some "production" then true
  else if risk_level == "high" then true
  else if decide (resolution.confidence < 0.9) then true
  else false

/-- `RemediationCoordinator._create_rollback_plan`
(`remediation_coordinator.py` lines 380-409). -/
def create_rollback_plan (actions : List RemediationAction) : List String :=
  actions.flatMap fun a =>
    if a = .github_update_config then
      ["Revert configuration file changes via Git",
       "Re-trigger workflow with reverted config"]
    else if a = .github_update_secret then
      ["Restore previous secret value", "Re-trigger workflow"]
    else if a = .kubernetes_scale then
      ["Scale back to original resource limits", "Monitor pod stability"]
    else if a = .argocd_update_manifest then
      ["Revert manifest changes in Git", "Trigger ArgoCD sync"]
    else if a = .github_rerun then
      ["Cancel workflow run if still in progress"]
    else []

/-- `RemediationCoordinator._estimate_execution_duration`
(`remediation_coordinator.py` lines 411-426), in minutes. -/
def estimate_execution_duration (actions : List RemediationAction) : Int :=
  (actions.map fun a =>
    match a with
    | .github_rerun => (2 : Int)
    | .github_update_config => 8
    | .github_update_secret => 3
    | .argocd_sync => 5
    | .argocd_update_manifest => 10
    | .kubernetes_scale => 7
    | .kubernetes_restart => 5
    | .wait_and_retry => 3
    | .escalate_to_human => 1).sum

/-- `RemediationCoordinator._identify_prerequisites`
(`remediation_coordinator.py` lines 428-450); the Python `list(set(...))`
is modelled as first-occurrence dedup. -/
def identify_prerequisites (actions : List RemediationAction) : List String :=
  (actions.flatMap fun a =>
    if a = .github_rerun ∨ a = .github_update_config then
      ["GitHub API access token", "Repository write permissions"]
    else if a = .argocd_sync ∨ a = .argocd_update_manifest then
      ["ArgoCD API access", "Application sync permissions"]
    else if a = .kubernetes_scale ∨ a = .kubernetes_restart then
      ["Kubernetes cluster access", "Namespace resource permissions"]
    else []).dedup

/-- `RemediationCoordinator._create_remediation_plan`
(`remediation_coordinator.py` lines 235-270). -/
def create_remediation_plan (environment : Option String) (source : String)
    (analysis : FailureAnalysis) (resolution : ResolutionCandidate) :
    RemediationPlan :=
  let actions := determine_remediation_actions source analysis
  let risk_level := assess_risk_level environment analysis resolution actions
  let approval_required := requires_approval environment resolution risk_level
  { resolution_id := resolution.resolution_id
    actions := actions
    approval_required := approval_required
    approval_status := if approval_required then .pending else .not_required
    risk_level := risk_level
    rollback_plan := create_rollback_plan actions
    estimated_duration := estimate_execution_duration actions
    prerequisites := identify_prerequisites actions }

/-- `RemediationCoordinator._should_proceed_with_remediation`
(`remediation_coordinator.py` lines 452-484): cost-benefit with constants
`cost_success = 1`, `cost_failure = 50`, `cost_manual = 500`, then the
high-risk and production confidence overrides. -/
def should_proceed_with_remediation (environment : Option String)
    (resolution : ResolutionCandidate) (plan : RemediationPlan) : Bool :=
  let expected_cost_auto := resolution.confidence * 1
      + (1 - resolution.confidence) * 50
  let p0 := decide (expected_cost_auto < 500)
  let p1 := if plan.risk_level == "high" && decide (resolution.confidence < 0.95)
      then false else p0
  if environment == some "production" && decide (resolution.confidence < 0.92)
    then false else p1

/-- `RemediationCoordinator._handle_approval_workflow`
(`remediation_coordinator.py` lines 486-512): auto-approve only for
development/staging with confidence above `0.9`; otherwise the plan stays
pending and the workflow reports `False`. -/
def handle_approval_workflow (environment : Option String)
    (resolution : ResolutionCandidate) : Bool :=
  (environment == some "development" || environment == some "staging")
    && decide (resolution.confidence > 0.9)

/-- Outcomes of the external action executors and of
`_verify_remediation_success`, supplied as an oracle: each `_execute_*`
call returns a success Boolean determined by the remote platforms. -/
structure ExecEnv where
  actionSuccess : RemediationAction → Bool
  verificationSuccess : Bool

/-- Sequential action loop of `_execute_remediation`: executed prefix and
the first failing action, if any (`remediation_coordinator.py` lines
539-548). -/
def runActions (env : ExecEnv) :
    List RemediationAction → List RemediationAction × Option RemediationAction
  | [] => ([], none)
  | a :: rest =>
    if env.actionSuccess a then
      let r := runActions env rest
      (a :: r.1, r.2)
    else ([a], some a)

/-- `RemediationCoordinator._create_failure_result`
(`remediation_coordinator.py` lines 1203-1220). -/
def create_failure_result (incident : IncidentEvent)
    (resolution : ResolutionCandidate) (error : String) : RemediationResult :=
  { incident_id := incident.incident_id
    remediation_id := resolution.resolution_id
    action_taken := resolution.description
    outcome := "failure"
    confidence_at_execution := resolution.confidence
    resolution_time_seconds := 0
    human_intervention_required := true
    rollback_performed := true
    details := [("error", error)] }

/-- `RemediationCoordinator._create_rejection_result`
(`remediation_coordinator.py` lines 1184-1201). -/
def create_rejection_result (incident : IncidentEvent)
    (resolution : ResolutionCandidate) (reason : String) : RemediationResult :=
  { incident_id := incident.incident_id
    remediation_id := resolution.resolution_id
    action_taken := "rejected"
    outcome := "rejected"
    confidence_at_execution := resolution.confidence
    resolution_time_seconds := 0
    human_intervention_required := true
    rollback_performed := false
    details := [("rejection_reason", reason)] }

/-- Execution outcome together with the executed actions and whether
`_rollback_remediation` was invoked. -/
structure ExecOutcome where
  result : RemediationResult
  executedActions : List RemediationAction
  rollbackInvoked : Bool
deriving Repr

/-- `RemediationCoordinator._execute_remediation`
(`remediation_coordinator.py` lines 514-591): actions run sequentially; the
first failure triggers `_rollback_remediation` and a `failure` result;
after all actions succeed, a verification failure also triggers rollback;
a clean success reports `success` with no rollback (the success result's
elapsed duration is modelled as 0). -/
def execute_remediation (env : ExecEnv) (incident : IncidentEvent)
    (resolution : ResolutionCandidate) (plan : RemediationPlan) : ExecOutcome :=
  let r := runActions env plan.actions
  match r.2 with
  | some failed =>
    { result := create_failure_result incident resolution
        ("Action " ++ actionValue failed ++ " failed")
      executedActions := r.1
      rollbackInvoked := true }
  | none =>
    if env.verificationSuccess then
      { result :=
          { incident_id := incident.incident_id
            remediation_id := resolution.resolution_id
            action_taken := resolution.description
            outcome := "success"
            confidence_at_execution := resolution.confidence
            resolution_time_seconds := 0
            human_intervention_required := false
            rollback_performed := false
            details := [] }
        executedActions := r.1
        rollbackInvoked := false }
    else
      { result := create_failure_result incident resolution "Verification failed"
        executedActions := r.1
        rollbackInvoked := true }

/-- Result of a full coordination cycle: the optional result together with
the executed actions and rollback indicator. -/
structure CoordinationOutcome where
  result : Option RemediationResult
  executedActions : List RemediationAction
  rollbackInvoked : Bool
deriving Repr

/-- `RemediationCoordinator.coordinate_remediation`
(`remediation_coordinator.py` lines 103-172): empty candidate list or no
selected resolution yields `None`; a failed cost-benefit gate yields a
`rejected` result with reason "Risk too high"; a pending approval yields a
`rejected` result with reason "Approval required"; otherwise the plan is
executed. -/
def coordinate_remediation (env : ExecEnv) (incident : IncidentEvent)
    (analysis : FailureAnalysis)
    (resolution_candidates : List ResolutionCandidate) : CoordinationOutcome :=
  let environment := dictGet incident.context "environment"
  if resolution_candidates = [] then ⟨none, [], false⟩
  else
    match select_resolution environment analysis resolution_candidates with
    | none => ⟨none, [], false⟩
    | some selected =>
      let plan := create_remediation_plan environment incident.source analysis
          selected
      if ¬ should_proceed_with_remediation environment selected plan then
        ⟨some (create_rejection_result incident selected "Risk too high"), [], false⟩
      else if plan.approval_required
          && ¬ handle_approval_workflow environment selected then
        ⟨some (create_rejection_result incident selected "Approval required"), [], false⟩
      else
        let e := execute_remediation env incident selected plan
        ⟨some e.result, e.executedActions, e.rollbackInvoked⟩

/-- `CodeHealerAgent._make_remediation_decision` (`core_agent.py` lines
281-307): remediate only when the best candidate meets the environment
threshold and the analysis is auto-fixable.  Thresholds come from
`CodeHealerAgent._get_min_confidence_threshold` (`core_agent.py` lines
379-381), modelled with the coordinator's default table. -/
def make_remediation_decision (environment : Option String)
    (analysis : FailureAnalysis) (candidates : List ResolutionCandidate) :
    Bool :=
  match (candidates.mergeSort confDesc) with
  | [] => false
  | best :: _ =>
    decide (get_min_confidence_threshold environment ≤ best.confidence)
      && decide (analysis.fixability = .auto)

/-! ## Feedback system (`feedback_system.py`) -/

/-- Default learning parameters (`feedback_system.py` lines 88-91). -/
def learning_rate : ℚ := 0.1
def min_sample_size : Nat := 10
def deprecation_threshold : ℚ := 0.3

/-- Mean of a rational list (0 for the empty list; the code never takes the
mean of an empty window on the paths modelled here). -/
def listMean (xs : List ℚ) : ℚ := xs.sum / (xs.length : ℚ)

/-- Python `xs[-n:]`. -/
def lastN {α : Type} (n : Nat) (xs : List α) : List α :=
  xs.drop (xs.length - n)

/-- Per-key calibration entry (`feedback_system.py` lines 269-274). -/
structure CalibrationData where
  predictions : List ℚ
  outcomes : List ℚ
  adjustment : ℚ
deriving DecidableEq, Repr

/-- Fresh calibration entry. -/
def initCalibrationData : CalibrationData := ⟨[], [], 0⟩

/-- `FeedbackSystem._update_confidence_calibration` (`feedback_system.py`
lines 256-295) for one key: append the (predicted, actual) pair, trim both
windows to the last 100, and once at least `min_sample_size` samples exist
store `adjustment = (mean_actual - mean_predicted) * learning_rate`. -/
def update_confidence_calibration (cd0 : Option CalibrationData)
    (predicted_success actual_success : ℚ) : CalibrationData :=
  let cd := cd0.getD initCalibrationData
  let predictions := cd.predictions ++ [predicted_success]
  let outcomes := cd.outcomes ++ [actual_success]
  let predictions := if predictions.length > 100 then lastN 100 predictions
      else predictions
  let outcomes := if outcomes.length > 100 then lastN 100 outcomes
      else outcomes
  if predictions.length ≥ min_sample_size then
    { predictions := predictions, outcomes := outcomes
      adjustment := (listMean outcomes - listMean predictions) * learning_rate }
  else
    { predictions := predictions, outcomes := outcomes
      adjustment := cd.adjustment }

/-- Per-(source, resolution) effectiveness entry
(`feedback_system.py` lines 392-399), with the `deprecated` key modelled as
a Boolean that is initially absent/false. -/
structure KnowledgeData where
  total_uses : Nat
  successful_uses : Nat
  effectiveness_scores : List ℚ
  deprecated : Bool
deriving DecidableEq, Repr

/-- Fresh effectiveness entry (`feedback_system.py` lines 392-399). -/
def initKnowledgeData : KnowledgeData := ⟨0, 0, [], false⟩

/-- `FeedbackSystem._update_knowledge_effectiveness` (`feedback_system.py`
lines 380-410): bump the counters, append the effectiveness score, and trim
the history to the last 50. -/
def update_knowledge_effectiveness (kd0 : Option KnowledgeData)
    (effectiveness_score : ℚ) (isSuccess : Bool) : KnowledgeData :=
  let kd := kd0.getD initKnowledgeData
  let scores := kd.effectiveness_scores ++ [effectiveness_score]
  let scores := if scores.length > 50 then lastN 50 scores else scores
  { total_uses := kd.total_uses + 1
    successful_uses := kd.successful_uses + (if isSuccess then 1 else 0)
    effectiveness_scores := scores
    deprecated := kd.deprecated }

/-- `FeedbackSystem._check_solution_deprecation` (`feedback_system.py`
lines 412-441): once `total_uses` reaches `min_sample_size`, flag the
solution as deprecated when the mean of the most recent 20 effectiveness
scores falls below the deprecation threshold.  (With an empty history the
mean would raise ZeroDivisionError, swallowed by `record_outcome`, leaving
the flag unset; on the modelled call path the history is never empty.) -/
def check_solution_deprecation (kd : KnowledgeData) : KnowledgeData :=
  if kd.total_uses < min_sample_size then kd
  else
    let recent := lastN 20 kd.effectiveness_scores
    if recent = [] then kd
    else if listMean recent < deprecation_threshold then
      { kd with deprecated := true }
    else kd

/-! ## Helper lemmas -/

/-- A pattern that does not match leaves the best-candidate accumulator
unchanged. -/
theorem patternStep_no_match {source : String} {t : List Char}
    {best : Option ErrorPattern × ℚ} {p : ErrorPattern}
    (h : rxSearch p.rx t = false) : patternStep source t best p = best := by
  simp [patternStep, h]

/-- Folding `patternStep` over patterns none of which match is the
identity. -/
theorem foldl_patternStep_no_match {source : String} {t : List Char} :
    ∀ (ps : List ErrorPattern) (b : Option ErrorPattern × ℚ),
    (∀ p ∈ ps, rxSearch p.rx t = false) →
    ps.foldl (patternStep source t) b = b := by
  intro ps
  induction ps with
  | nil => intro b _; rfl
  | cons p rest ih =>
    intro b h
    rw [List.foldl_cons, patternStep_no_match (h p (by simp))]
    exact ih b fun q hq => h q (by simp [hq])

/-- When no predefined pattern matches the text, pattern matching returns
`None`. -/
theorem pattern_match_analysis_eq_none {source errorText : String}
    (h : ∀ p ∈ error_patterns, rxSearch p.rx (lc errorText) = false) :
    pattern_match_analysis source errorText = none := by
  unfold pattern_match_analysis
  simp only [foldl_patternStep_no_match error_patterns (none, 0) h]

/-- The live `analyze_failure` body always raises `TypeError` at the
three-argument `_llm_analysis` call, so the method always returns the
keyword fallback analysis, for every incident and whether or not a model
endpoint is configured. -/
theorem analyze_failure_eq_fallback (apiKeyConfigured : Bool)
    (incident : IncidentEvent) :
    analyze_failure apiKeyConfigured incident =
      create_fallback_analysis incident := by
  simp [analyze_failure, analyze_failure_body, checkCallArity,
    llm_analysis_max_positional, Bind.bind, Except.bind]

/-- The eighth predefined pattern
(`(?i)(oomkilled|out of memory|memory limit|memory.*exceeded)`,
`failure_analyzer.py` lines 113-119). -/
def memoryLimitPattern : ErrorPattern :=
  ⟨[ch ["oomkilled"], ch ["out of memory"], ch ["memory limit"],
    ch ["memory", "exceeded"]],
   .resource, "memory_limit", .auto, 0.19⟩

/-- Splitting the pattern list around the memory-limit pattern. -/
theorem error_patterns_split :
    error_patterns =
      error_patterns.take 7 ++ memoryLimitPattern :: error_patterns.drop 8 := rfl

/-- Concrete incident for the OOMKilled scenario: error text containing
"OOMKilled", generic source, no model endpoint. -/
def oomIncident : IncidentEvent :=
  { incident_id := "inc-oom", timestamp := 0, source := "webhook",
    severity := "high", failure_type := "deployment_failure", context := [],
    error_log := "OOMKilled", system_state := [], raw_event := [] }

/-- Pattern matching on "OOMKilled" selects the memory-limit pattern with
confidence `0.6 + 0.19 = 0.79`. -/
theorem pattern_match_oomkilled :
    pattern_match_analysis "webhook" "OOMKilled" =
      some ⟨.resource, "memory_limit", .auto, 0.79⟩ := by
  have hA : ∀ p ∈ error_patterns.take 7, rxSearch p.rx (lc "OOMKilled") = false := by
    decide
  have hB : ∀ p ∈ error_patterns.drop 8, rxSearch p.rx (lc "OOMKilled") = false := by
    decide
  have hm : rxSearch memoryLimitPattern.rx (lc "OOMKilled") = true := by decide
  have hc : rxCount memoryLimitPattern.rx (lc "OOMKilled") = 1 := by decide
  have hw : (("webhook" == "github_actions") : Bool) = false := by decide
  have hk : (("webhook" == "kubernetes") : Bool) = false := by decide
  simp only [memoryLimitPattern] at hm hc
  have hfold : error_patterns.foldl (patternStep "webhook" (lc "OOMKilled"))
      (none, 0) = (some memoryLimitPattern, 0.79) := by
    conv_lhs => rw [error_patterns_split]
    rw [List.foldl_append,
      foldl_patternStep_no_match (error_patterns.take 7) (none, 0) hA,
      List.foldl_cons,
      foldl_patternStep_no_match (error_patterns.drop 8) _ hB]
    norm_num [patternStep, hm, hc, patternConfidence, memoryLimitPattern, hw, hk]
  unfold pattern_match_analysis
  simp only [hfold]
  norm_num [memoryLimitPattern]

/-- The keyword fallback on "OOMKilled" classifies it as
resource/resource_limit with confidence 0.5 ("oom" keyword hit). -/
theorem fallback_oomkilled :
    create_fallback_analysis oomIncident =
      { incident_id := "inc-oom", primary_category := .resource,
        subcategory := "resource_limit",
        root_cause := "Fallback analysis - unable to classify failure automatically",
        fixability := .auto, confidence := 0.5,
        reasoning := "Fallback rule-based analysis due to LLM unavailability",
        affected_components := [], recent_changes := [] } := by
  have h1 : anyKeyword (lc "OOMKilled") ["yaml", "json", "syntax", "parse"] = false := by
    decide
  have h2 : anyKeyword (lc "OOMKilled") ["unauthorized", "forbidden", "auth"] = false := by
    decide
  have h3 : anyKeyword (lc "OOMKilled") ["memory", "oom", "resource"] = true := by
    decide
  simp [create_fallback_analysis, fallback_keyword_class, oomIncident, h1, h2, h3]

/-- C1: with error text containing "OOMKilled" and no model configured, the
pattern matcher does compute the classification the spec describes
(resource / memory_limit / auto, confidence 0.6 + 0.19 = 0.79), but the
live `analyze_failure` never returns it: its call
`self._llm_analysis(incident, detailed_logs, pattern_analysis)` passes
three positional arguments to a two-argument method, the resulting
TypeError is swallowed, and the keyword fallback
(resource / resource_limit, confidence 0.5) is returned instead. -/
theorem claim_C1_oomkilled_pattern_match_and_live_analyzer :
    pattern_match_analysis "webhook" "OOMKilled" =
      some ⟨.resource, "memory_limit", .auto, 0.79⟩ ∧
    analyze_failure false oomIncident = create_fallback_analysis oomIncident ∧
    (analyze_failure false oomIncident).primary_category = .resource ∧
    (analyze_failure false oomIncident).subcategory = "resource_limit" ∧
    (analyze_failure false oomIncident).fixability = .auto ∧
    (analyze_failure false oomIncident).confidence = 0.5 := by
  refine ⟨pattern_match_oomkilled, analyze_failure_eq_fallback false oomIncident,
    ?_, ?_, ?_, ?_⟩ <;>
    rw [analyze_failure_eq_fallback false oomIncident, fallback_oomkilled]

/-- Concrete incident whose error log is "yaml": no regex pattern matches,
no model is configured, yet the keyword fallback classifies it as
config / syntax_error / auto with confidence 0.6. -/
def yamlIncident : IncidentEvent :=
  { incident_id := "inc-yaml", timestamp := 0, source := "webhook",
    severity := "high", failure_type := "deployment_failure", context := [],
    error_log := "yaml", system_state := [], raw_event := [] }

/-- C3 counterexample: for the "yaml" incident both the pattern path
(no signature matches) and the model path (no endpoint) fail, yet the
fallback analysis has fixability `auto` and confidence 0.6 — not
`investigate` with confidence 0.3 as the claim states (and
`FailureAnalysis` has no `requires_approval` field at all, see
`failureAnalysisFields`). -/
theorem claim_C3_counterexample :
    pattern_match_analysis "webhook" "yaml" = none ∧
    (analyze_failure false yamlIncident).fixability = .auto ∧
    (analyze_failure false yamlIncident).confidence = 0.6 ∧
    failureAnalysisFields.contains "requires_approval" = false := by
  have hnone : pattern_match_analysis "webhook" "yaml" = none :=
    pattern_match_analysis_eq_none (by decide)
  have h1 : anyKeyword (lc "yaml") ["yaml", "json", "syntax", "parse"] = true := by
    decide
  refine ⟨hnone, ?_, ?_, by decide⟩ <;>
    · rw [analyze_failure_eq_fallback false yamlIncident]
      simp [create_fallback_analysis, fallback_keyword_class, yamlIncident, h1]

/-- C3 (amended): `analyze_failure` never raises — every exception in its
body, including the ever-present TypeError at the `_llm_analysis` call, is
caught and the keyword fallback returned — and when no fallback keyword
matches either, the fallback is the conservative
dependency / unknown_failure / investigate classification with confidence
0.3.  (`FailureAnalysis` has no `requires_approval` field; the fallback's
fixability and confidence for keyword hits follow the keyword table
instead of being fixed at investigate / 0.3.) -/
theorem claim_C3_amended :
    ∀ (apiKeyConfigured : Bool) (incident : IncidentEvent),
    analyze_failure apiKeyConfigured incident =
      create_fallback_analysis incident ∧
    (anyKeyword (lc incident.error_log) ["yaml", "json", "syntax", "parse"] = false →
     anyKeyword (lc incident.error_log) ["unauthorized", "forbidden", "auth"] = false →
     anyKeyword (lc incident.error_log) ["memory", "oom", "resource"] = false →
     anyKeyword (lc incident.error_log) ["timeout", "connection", "network"] = false →
     (analyze_failure apiKeyConfigured incident).primary_category = .dependency ∧
     (analyze_failure apiKeyConfigured incident).subcategory = "unknown_failure" ∧
     (analyze_failure apiKeyConfigured incident).fixability = .investigate ∧
     (analyze_failure apiKeyConfigured incident).confidence = 0.3) := by
  intro apiKeyConfigured incident
  refine ⟨analyze_failure_eq_fallback apiKeyConfigured incident, ?_⟩
  intro h1 h2 h3 h4
  rw [analyze_failure_eq_fallback apiKeyConfigured incident]
  refine ⟨?_, ?_, ?_, ?_⟩ <;>
    simp [create_fallback_analysis, fallback_keyword_class, h1, h2, h3, h4]

/-- Incident whose error log matches no fallback keyword. -/
def blankIncident : IncidentEvent :=
  { incident_id := "inc-blank", timestamp := 0, source := "webhook",
    severity := "low", failure_type := "deployment_failure", context := [],
    error_log := "zzz", system_state := [], raw_event := [] }

/-- Witness for the amended C3 claim at the keyword-free incident. -/
theorem claim_C3_amended_witness :
    analyze_failure false blankIncident = create_fallback_analysis blankIncident ∧
    (analyze_failure false blankIncident).primary_category = .dependency ∧
    (analyze_failure false blankIncident).subcategory = "unknown_failure" ∧
    (analyze_failure false blankIncident).fixability = .investigate ∧
    (analyze_failure false blankIncident).confidence = 0.3 := by
  obtain ⟨h, h2⟩ := claim_C3_amended false blankIncident
  exact ⟨h, h2 (by decide) (by decide) (by decide) (by decide)⟩

/-- The production confidence threshold is 0.92. -/
theorem threshold_production :
    get_min_confidence_threshold (some "production") = 0.92 := rfl

/-- Selection rejects every candidate when the analysis is not
auto-fixable, for every environment. -/
theorem select_resolution_none_of_not_auto (environment : Option String)
    (analysis : FailureAnalysis) (candidates : List ResolutionCandidate)
    (h : analysis.fixability ≠ .auto) :
    select_resolution environment analysis candidates = none := by
  have hfix : decide (analysis.fixability = .auto) = false := decide_eq_false h
  unfold select_resolution
  have hfilter : candidates.filter (fun c =>
      decide (get_min_confidence_threshold environment ≤ c.confidence) &&
        decide (analysis.fixability = .auto)) = [] := by
    rw [List.filter_eq_nil_iff]
    intro c _
    simp [hfix]
  simp [hfilter]

/-- Selection rejects every candidate below the environment threshold. -/
theorem select_resolution_none_of_below_threshold (environment : Option String)
    (analysis : FailureAnalysis) (candidates : List ResolutionCandidate)
    (h : ∀ c ∈ candidates,
      c.confidence < get_min_confidence_threshold environment) :
    select_resolution environment analysis candidates = none := by
  unfold select_resolution
  have hfilter : candidates.filter (fun c =>
      decide (get_min_confidence_threshold environment ≤ c.confidence) &&
        decide (analysis.fixability = .auto)) = [] := by
    rw [List.filter_eq_nil_iff]
    intro c hc
    have := h c hc
    simp [decide_eq_false (not_le.mpr this)]
  simp [hfilter]

/-- Coordination returns no result and runs nothing when selection fails. -/
theorem coordinate_remediation_none_of_select_none (env : ExecEnv)
    (incident : IncidentEvent) (analysis : FailureAnalysis)
    (candidates : List ResolutionCandidate)
    (h : select_resolution (dictGet incident.context "environment") analysis
      candidates = none) :
    coordinate_remediation env incident analysis candidates =
      ⟨none, [], false⟩ := by
  unfold coordinate_remediation
  by_cases hc : candidates = []
  · simp [hc]
  · simp [hc, h]

/-- Concrete production incident for the threshold-mismatch scenario. -/
def prodIncident : IncidentEvent :=
  { incident_id := "inc-prod", timestamp := 0, source := "kubernetes",
    severity := "high", failure_type := "deployment_failure",
    context := [("environment", "production")], error_log := "OOMKilled",
    system_state := [], raw_event := [] }

/-- An auto-fixable analysis used by the coordinator scenarios. -/
def autoAnalysis : FailureAnalysis :=
  { incident_id := "inc-prod", primary_category := .resource,
    subcategory := "memory_limit", root_cause := "memory limit exceeded",
    fixability := .auto, confidence := 0.79, reasoning := "pattern",
    affected_components := [], recent_changes := [] }

/-- Best candidate with confidence 0.90, below the production threshold. -/
def cand90 : ResolutionCandidate :=
  { resolution_id := "r90", source := .slack, description := "apply fix",
    steps := ["step1"], confidence := 0.90, success_rate := 0.95,
    last_used := none, environment_match := true, code_changes := [],
    estimated_duration := 10 }

/-- Execution oracle in which every action and the verification succeed. -/
def allOkEnv : ExecEnv := ⟨fun _ => true, true⟩

/-- C2 counterexample: for a production incident whose best candidate has
confidence 0.90 (below 0.92), `coordinate_remediation` returns `None` —
not a `rejected` result — and executes nothing: the threshold filter
empties the candidate set inside `_select_resolution` and the coordinator
then returns before any rejection result is built. -/
theorem claim_C2_counterexample :
    (coordinate_remediation allOkEnv prodIncident autoAnalysis [cand90]).result
      = none ∧
    (coordinate_remediation allOkEnv prodIncident autoAnalysis
      [cand90]).executedActions = [] := by
  have hsel : select_resolution (dictGet prodIncident.context "environment")
      autoAnalysis [cand90] = none := by
    apply select_resolution_none_of_below_threshold
    intro c hc
    have : c = cand90 := by simpa using hc
    subst this
    show (0.90 : ℚ) < get_min_confidence_threshold
      (dictGet prodIncident.context "environment")
    have : dictGet prodIncident.context "environment" = some "production" := rfl
    rw [this, threshold_production]
    norm_num [cand90]
  rw [coordinate_remediation_none_of_select_none allOkEnv prodIncident
    autoAnalysis [cand90] hsel]
  exact ⟨rfl, rfl⟩

/-- C2 (amended): for a production incident all of whose candidates fall
below the 0.92 production threshold, the Coordinator returns `None` — no
result object at all — and no actions are executed; `rejected` results
arise only from the later cost-benefit and approval gates, after a
candidate has passed the threshold filter. -/
theorem claim_C2_amended :
    ∀ (env : ExecEnv) (incident : IncidentEvent) (analysis : FailureAnalysis)
      (candidates : List ResolutionCandidate),
    dictGet incident.context "environment" = some "production" →
    (∀ c ∈ candidates, c.confidence < 0.92) →
    (coordinate_remediation env incident analysis candidates).result = none ∧
    (coordinate_remediation env incident analysis candidates).executedActions
      = [] ∧
    (coordinate_remediation env incident analysis candidates).rollbackInvoked
      = false := by
  intro env incident analysis candidates hprod hconf
  have hsel : select_resolution (dictGet incident.context "environment")
      analysis candidates = none := by
    apply select_resolution_none_of_below_threshold
    intro c hc
    rw [hprod, threshold_production]
    exact hconf c hc
  rw [coordinate_remediation_none_of_select_none env incident analysis
    candidates hsel]
  exact ⟨rfl, rfl, rfl⟩

/-- Witness for the amended C2 claim at the concrete production scenario. -/
theorem claim_C2_amended_witness :
    (coordinate_remediation allOkEnv prodIncident autoAnalysis [cand90]).result
        = none ∧
    (coordinate_remediation allOkEnv prodIncident autoAnalysis
      [cand90]).executedActions = [] ∧
    (coordinate_remediation allOkEnv prodIncident autoAnalysis
      [cand90]).rollbackInvoked = false := by
  apply claim_C2_amended allOkEnv prodIncident autoAnalysis [cand90] rfl
  intro c hc
  have : c = cand90 := by simpa using hc
  subst this
  norm_num [cand90]

/-- C6: whenever the analysis is not auto-fixable, no candidate is selected
for automatic execution — `_select_resolution` returns `None`, the agent's
remediation decision is negative, and coordination produces no result —
regardless of candidate confidences. -/
theorem claim_C6_no_auto_selection :
    ∀ (environment : Option String) (analysis : FailureAnalysis)
      (candidates : List ResolutionCandidate),
    analysis.fixability ≠ .auto →
    select_resolution environment analysis candidates = none ∧
    make_remediation_decision environment analysis candidates = false ∧
    ∀ (env : ExecEnv) (incident : IncidentEvent),
      (coordinate_remediation env incident analysis candidates).result = none := by
  intro environment analysis candidates h
  have hfix : decide (analysis.fixability = .auto) = false := decide_eq_false h
  refine ⟨select_resolution_none_of_not_auto environment analysis candidates h,
    ?_, ?_⟩
  · unfold make_remediation_decision
    cases candidates.mergeSort confDesc with
    | nil => rfl
    | cons best rest => simp [hfix]
  · intro env incident
    rw [coordinate_remediation_none_of_select_none env incident analysis
      candidates
      (select_resolution_none_of_not_auto _ analysis candidates h)]

/-- Analysis classified as needing investigation. -/
def investigateAnalysis : FailureAnalysis :=
  { incident_id := "inc-inv", primary_category := .drift,
    subcategory := "state_inconsistency", root_cause := "drift",
    fixability := .investigate, confidence := 0.95, reasoning := "",
    affected_components := [], recent_changes := [] }

/-- Witness for C6: even a 0.90-confidence candidate is not selected when
fixability is `investigate`. -/
theorem claim_C6_no_auto_selection_witness :
    select_resolution (some "development") investigateAnalysis [cand90] = none ∧
    make_remediation_decision (some "development") investigateAnalysis [cand90]
      = false ∧
    (coordinate_remediation allOkEnv prodIncident investigateAnalysis
      [cand90]).result = none := by
  obtain ⟨h1, h2, h3⟩ := claim_C6_no_auto_selection (some "development")
    investigateAnalysis [cand90] (by simp [investigateAnalysis])
  exact ⟨h1, h2, h3 allOkEnv prodIncident⟩

/-- The action loop reports no failing action exactly when every action in
the plan succeeds. -/
theorem runActions_snd_none_iff (env : ExecEnv) :
    ∀ as : List RemediationAction,
    ((runActions env as).2 = none ↔ as.all env.actionSuccess = true) := by
  intro as
  induction as with
  | nil => simp [runActions]
  | cons a rest ih =>
    by_cases ha : env.actionSuccess a = true
    · simp [runActions, ha, ih]
    · simp [runActions, ha]

/-- C10: rollback is invoked exactly on the action-failure and
verification-failure paths — never on a clean success — and the reported
outcome is `success` precisely on the clean path. -/
theorem claim_C10_rollback_iff_failure :
    ∀ (env : ExecEnv) (incident : IncidentEvent)
      (resolution : ResolutionCandidate) (plan : RemediationPlan),
    ((execute_remediation env incident resolution plan).rollbackInvoked =
      !(plan.actions.all env.actionSuccess && env.verificationSuccess)) ∧
    ((execute_remediation env incident resolution plan).result.outcome =
      if plan.actions.all env.actionSuccess && env.verificationSuccess
      then "success" else "failure") := by
  intro env incident resolution plan
  have hiff := runActions_snd_none_iff env plan.actions
  unfold execute_remediation
  cases hr : (runActions env plan.actions).2 with
  | none =>
    have hall : plan.actions.all env.actionSuccess = true := hiff.mp hr
    rw [hall]
    cases hv : env.verificationSuccess <;>
      simp [hr, hv, create_failure_result]
  | some a =>
    have hall : plan.actions.all env.actionSuccess = false := by
      cases hq : plan.actions.all env.actionSuccess
      · rfl
      · rw [hiff.mpr hq] at hr; cases hr
    rw [hall]
    simp [hr, create_failure_result]

/-- The similarity computation always dies at `analysis.indicators`
(`FailureAnalysis` has no such field) and the caught AttributeError yields
similarity 0.0 for every analysis and cached solution. -/
theorem calculate_solution_similarity_eq_zero (a : FailureAnalysis)
    (sol : CachedLlmSolution) : calculate_solution_similarity a sol = 0 := by
  have h : ¬ ("indicators" ∈ failureAnalysisFields) := by decide
  simp [calculate_solution_similarity, calculate_solution_similarity_body,
    getAnalysisIndicators, h, Bind.bind, Except.bind]

/-- With every similarity evaluating to 0 (never above the 0.7 threshold),
cached-solution retrieval returns the empty list for every cache, analysis
and result bound. -/
theorem retrieve_similar_llm_solutions_eq_nil (cache : List CachedLlmSolution)
    (a : FailureAnalysis) (maxResults : Nat) :
    retrieve_similar_llm_solutions cache a maxResults = [] := by
  unfold retrieve_similar_llm_solutions
  have h : (cache.filterMap fun sol =>
      let sim := calculate_solution_similarity a sol
      if sim > 0.7 then some (⟨sol, sim⟩ : ScoredCachedSolution) else none) = [] := by
    rw [List.filterMap_eq_nil_iff]
    intro sol _
    rw [calculate_solution_similarity_eq_zero a sol]
    norm_num
  simp [h]

/-- The `ResolutionCandidate(...)` constructor call of
`_cached_llm_to_candidate` has an invalid keyword-argument set. -/
theorem cached_candidate_call_invalid :
    dataclassCallOk resolutionCandidateFields cachedCandidateCallKwargs
      = false := by decide

/-- The cached-solution conversion always raises TypeError inside its
try-block and therefore always returns `None`. -/
theorem cached_llm_to_candidate_eq_none (scored : ScoredCachedSolution) :
    cached_llm_to_candidate scored = none := by
  unfold cached_llm_to_candidate
  rw [if_neg]
  intro h
  rw [cached_candidate_call_invalid] at h
  cases h

/-- Analysis that exactly matches the stored cached solution below. -/
def c7Analysis : FailureAnalysis :=
  { incident_id := "inc-7", primary_category := .resource,
    subcategory := "memory_limit", root_cause := "memory limit exceeded",
    fixability := .auto, confidence := 0.79, reasoning := "",
    affected_components := [], recent_changes := [] }

/-- Stored successful model solution with identical category, subcategory
and confidence — the intended similarity would clear any threshold. -/
def c7Cached : CachedLlmSolution :=
  { incident_id := "inc-0", signature := "sig-memory-limit",
    category := "resource", subcategory := "memory_limit",
    confidence := 0.79, resolution_steps := ["raise the memory limit"],
    fix_actions := [], estimated_fix_time := "5 minutes", reuse_count := 3,
    success_rate := 1, tags := ["resource", "memory_limit"], timestamp := 0 }

/-- C7: the cached-solution reuse path is dead code.  Even for a cached
solution whose category, subcategory and confidence match the analysis
exactly, `analysis.indicators` raises AttributeError inside the similarity
computation (similarity 0, never above 0.7), the cache query returns
nothing, and the candidate conversion's dataclass call raises TypeError
(invalid keyword arguments), so no cached candidate is ever offered. -/
theorem claim_C7_cached_reuse_dead_path :
    calculate_solution_similarity_body c7Analysis c7Cached =
      .error .attributeError ∧
    calculate_solution_similarity c7Analysis c7Cached = 0 ∧
    retrieve_similar_llm_solutions [c7Cached] c7Analysis 3 = [] ∧
    cached_llm_to_candidate ⟨c7Cached, 0.9⟩ = none ∧
    dataclassCallOk resolutionCandidateFields cachedCandidateCallKwargs
      = false := by
  refine ⟨?_, calculate_solution_similarity_eq_zero c7Analysis c7Cached,
    retrieve_similar_llm_solutions_eq_nil [c7Cached] c7Analysis 3,
    cached_llm_to_candidate_eq_none ⟨c7Cached, 0.9⟩,
    cached_candidate_call_invalid⟩
  have h : ¬ ("indicators" ∈ failureAnalysisFields) := by decide
  simp [calculate_solution_similarity_body, getAnalysisIndicators, h,
    Bind.bind, Except.bind]

/-- Transitivity of the descending-confidence comparison. -/
theorem confDesc_trans : ∀ (a b c : ResolutionCandidate),
    confDesc a b → confDesc b c → confDesc a c := by
  intro a b c hab hbc
  simp only [confDesc, decide_eq_true_eq] at *
  exact le_trans hbc hab

/-- Totality of the descending-confidence comparison. -/
theorem confDesc_total : ∀ (a b : ResolutionCandidate),
    confDesc a b || confDesc b a := by
  intro a b
  simp only [confDesc, Bool.or_eq_true, decide_eq_true_eq]
  exact le_total b.confidence a.confidence

/-- The dedup loop produces pairwise-distinct step keys, all outside the
already-seen set. -/
theorem dedupSeen_spec : ∀ (cs : List ResolutionCandidate)
    (seen : List (List String)),
    ((dedupSeen seen cs).map (fun c => c.steps)).Nodup ∧
    ∀ c ∈ dedupSeen seen cs, c.steps ∉ seen := by
  intro cs
  induction cs with
  | nil => intro seen; simp [dedupSeen]
  | cons c rest ih =>
    intro seen
    by_cases h : c.steps ∈ seen
    · rw [show dedupSeen seen (c :: rest) = dedupSeen seen rest by
        simp [dedupSeen, h]]
      exact ih seen
    · rw [show dedupSeen seen (c :: rest) =
          c :: dedupSeen (c.steps :: seen) rest by simp [dedupSeen, h]]
      obtain ⟨ihn, ihs⟩ := ih (c.steps :: seen)
      constructor
      · rw [List.map_cons, List.nodup_cons]
        refine ⟨?_, ihn⟩
        intro hmem
        obtain ⟨x, hx, hxs⟩ := List.mem_map.mp hmem
        exact (ihs x hx) (by rw [hxs]; exact List.mem_cons_self _ _)
      · intro x hx
        rcases List.mem_cons.mp hx with rfl | hx'
        · exact h
        · intro hmem
          exact (ihs x hx') (List.mem_cons_of_mem _ hmem)

/-- Deduplication yields pairwise-distinct step keys. -/
theorem deduplicate_candidates_keys_nodup (cs : List ResolutionCandidate) :
    ((deduplicate_candidates cs).map (fun c => c.steps)).Nodup :=
  (dedupSeen_spec cs []).1

/-- Deduplication of a non-empty list is non-empty (the first candidate is
always kept). -/
theorem deduplicate_candidates_ne_nil (c : ResolutionCandidate)
    (cs : List ResolutionCandidate) : deduplicate_candidates (c :: cs) ≠ [] := by
  simp [deduplicate_candidates, dedupSeen]

/-- Unfolded shape of `retrieve_solutions`. -/
theorem retrieve_solutions_eq (cache : List CachedLlmSolution)
    (incidentEnv : Option String) (incident_id : String)
    (analysis : FailureAnalysis) (slack : SourceResult SlackSolution)
    (vector : SourceResult VectorSearchResult)
    (llm : SourceResult LlmSolutionDict) :
    retrieve_solutions cache incidentEnv incident_id analysis slack vector llm =
      (deduplicate_candidates
        ((retrieve_similar_llm_solutions cache analysis 3).filterMap
            cached_llm_to_candidate
          ++ (sourceItems slack).filterMap slack_to_candidate
          ++ (sourceItems vector).filterMap (vector_to_candidate incidentEnv)
          ++ (if analysis.confidence > 0.8 then []
              else parse_llm_solutions (sourceItems llm)).filterMap
              (llm_to_candidate incident_id))).mergeSort confDesc := rfl

/-- C4: retrieval never raises (it is a total function of the per-source
outcomes, an exception becoming that source's empty partial result) and
always returns a deduplicated, confidence-descending list; when the chat
source raises while the similarity and model sources succeed, the result is
exactly the deduplicated confidence-sorted union of the two successful
sources' candidates, non-empty whenever they contribute a candidate; and on
total failure of all sources it returns the empty list. -/
theorem claim_C4_retrieval_contract :
    (∀ (cache : List CachedLlmSolution) (incidentEnv : Option String)
       (incident_id : String) (analysis : FailureAnalysis)
       (slack : SourceResult SlackSolution)
       (vector : SourceResult VectorSearchResult)
       (llm : SourceResult LlmSolutionDict),
      List.Pairwise (fun a b : ResolutionCandidate =>
          b.confidence ≤ a.confidence)
        (retrieve_solutions cache incidentEnv incident_id analysis slack
          vector llm) ∧
      ((retrieve_solutions cache incidentEnv incident_id analysis slack vector
          llm).map (fun c => c.steps)).Nodup) ∧
    (∀ (cache : List CachedLlmSolution) (incidentEnv : Option String)
       (incident_id : String) (analysis : FailureAnalysis)
       (vs : List VectorSearchResult) (ls : List LlmSolutionDict),
      retrieve_solutions cache incidentEnv incident_id analysis .raised
          (.ok vs) (.ok ls) =
        (deduplicate_candidates
          (vs.filterMap (vector_to_candidate incidentEnv)
            ++ (if analysis.confidence > 0.8 then []
                else parse_llm_solutions ls).filterMap
                (llm_to_candidate incident_id))).mergeSort confDesc ∧
      (vs.filterMap (vector_to_candidate incidentEnv)
          ++ (if analysis.confidence > 0.8 then []
              else parse_llm_solutions ls).filterMap
              (llm_to_candidate incident_id) ≠ [] →
        retrieve_solutions cache incidentEnv incident_id analysis .raised
          (.ok vs) (.ok ls) ≠ [])) ∧
    (∀ (cache : List CachedLlmSolution) (incidentEnv : Option String)
       (incident_id : String) (analysis : FailureAnalysis),
      retrieve_solutions cache incidentEnv incident_id analysis .raised
        .raised .raised = []) := by
  refine ⟨?_, ?_, ?_⟩
  · intro cache incidentEnv incident_id analysis slack vector llm
    rw [retrieve_solutions_eq]
    constructor
    · have hs := List.sorted_mergeSort confDesc_trans confDesc_total
        (deduplicate_candidates
          ((retrieve_similar_llm_solutions cache analysis 3).filterMap
              cached_llm_to_candidate
            ++ (sourceItems slack).filterMap slack_to_candidate
            ++ (sourceItems vector).filterMap (vector_to_candidate incidentEnv)
            ++ (if analysis.confidence > 0.8 then []
                else parse_llm_solutions (sourceItems llm)).filterMap
                (llm_to_candidate incident_id)))
      exact hs.imp fun h => by
        simpa [confDesc, decide_eq_true_eq] using h
    · have hperm := List.mergeSort_perm
        (deduplicate_candidates
          ((retrieve_similar_llm_solutions cache analysis 3).filterMap
              cached_llm_to_candidate
            ++ (sourceItems slack).filterMap slack_to_candidate
            ++ (sourceItems vector).filterMap (vector_to_candidate incidentEnv)
            ++ (if analysis.confidence > 0.8 then []
                else parse_llm_solutions (sourceItems llm)).filterMap
                (llm_to_candidate incident_id))) confDesc
      exact ((hperm.map (fun c => c.steps)).nodup_iff).mpr
        (deduplicate_candidates_keys_nodup _)
  · intro cache incidentEnv incident_id analysis vs ls
    have heq : retrieve_solutions cache incidentEnv incident_id analysis
        .raised (.ok vs) (.ok ls) =
        (deduplicate_candidates
          (vs.filterMap (vector_to_candidate incidentEnv)
            ++ (if analysis.confidence > 0.8 then []
                else parse_llm_solutions ls).filterMap
                (llm_to_candidate incident_id))).mergeSort confDesc := by
      rw [retrieve_solutions_eq, retrieve_similar_llm_solutions_eq_nil]
      simp [sourceItems]
    refine ⟨heq, ?_⟩
    intro hne
    rw [heq]
    cases hcs : vs.filterMap (vector_to_candidate incidentEnv)
        ++ (if analysis.confidence > 0.8 then []
            else parse_llm_solutions ls).filterMap
            (llm_to_candidate incident_id) with
    | nil => exact absurd hcs hne
    | cons c rest =>
      have hlen := (List.mergeSort_perm
        (deduplicate_candidates (c :: rest)) confDesc).length_eq
      intro hnil
      rw [hnil] at hlen
      exact deduplicate_candidates_ne_nil c rest
        (List.length_eq_zero.mp hlen.symm)
  · intro cache incidentEnv incident_id analysis
    rw [retrieve_solutions_eq, retrieve_similar_llm_solutions_eq_nil]
    simp [sourceItems, parse_llm_solutions, deduplicate_candidates, dedupSeen]

/-- Vector search hit used in concrete scenarios. -/
def v0 : VectorSearchResult :=
  { incident_id := "past-0", similarity_score := 0.85,
    resolution_steps := ["scale the deployment"], success_rate := 0.9,
    environment := "production", last_applied := 10, metadata := [] }

/-- Witness for C4 at concrete inputs: a failed chat source with one
similarity hit yields a sorted non-empty result, and all-failed sources
yield the empty list. -/
theorem claim_C4_retrieval_contract_witness :
    List.Pairwise (fun a b : ResolutionCandidate =>
        b.confidence ≤ a.confidence)
      (retrieve_solutions [] none "i" autoAnalysis .raised (.ok [v0])
        (.ok [])) ∧
    retrieve_solutions [] none "i" autoAnalysis .raised (.ok [v0]) (.ok [])
      ≠ [] ∧
    retrieve_solutions [] none "i" autoAnalysis .raised .raised .raised
      = [] := by
  refine ⟨(claim_C4_retrieval_contract.1 [] none "i" autoAnalysis .raised
      (.ok [v0]) (.ok [])).1,
    (claim_C4_retrieval_contract.2.1 [] none "i" autoAnalysis [v0] []).2 ?_,
    claim_C4_retrieval_contract.2.2 [] none "i" autoAnalysis⟩
  intro h
  simp [vector_to_candidate] at h

/-- Model-solution dict with a negative self-reported confidence: it passes
format validation (only key presence is checked). -/
def badLlmDict : LlmSolutionDict :=
  { description := some "negative-confidence fix", steps := some ["step"],
    confidence := some (-(1/2)), estimated_duration := some 5 }

/-- C5 counterexample: the model-solution conversion propagates a negative
self-reported confidence — `min(0.65, min(-0.5, 0.8)) = -0.5` — producing a
candidate confidence outside `[0, 1]`, and the format validation does not
reject the value. -/
theorem claim_C5_counterexample :
    validate_solution_format badLlmDict = true ∧
    ((llm_to_candidate "inc-x" badLlmDict).map (fun c => c.confidence)) =
      some (-(1/2)) ∧
    ¬ ((0 : ℚ) ≤ -(1/2)) := by
  refine ⟨by decide, ?_, by norm_num⟩
  norm_num [llm_to_candidate, badLlmDict, confidence_baseline, min_def]

/-- Bounds on the predefined confidence boosts. -/
theorem error_patterns_boost_bounds :
    ∀ p ∈ error_patterns, 0 ≤ p.confidence_boost ∧ p.confidence_boost ≤ 0.2 := by
  intro p hp
  simp only [error_patterns, List.mem_cons, List.not_mem_nil, or_false] at hp
  rcases hp with rfl | rfl | rfl | rfl | rfl | rfl | rfl | rfl | rfl | rfl |
    rfl | rfl | rfl | rfl | rfl | rfl | rfl <;> norm_num

/-- A matched pattern's confidence lies in `[0, 1]`: at most
`0.6 + 0.2 + 0.1 + 0.05 + 0.05`. -/
theorem patternConfidence_bounds (s : String) (p : ErrorPattern) (c : Nat)
    (hb : 0 ≤ p.confidence_boost ∧ p.confidence_boost ≤ 0.2) :
    0 ≤ patternConfidence s p c ∧ patternConfidence s p c ≤ 1 := by
  obtain ⟨h0, h2⟩ := hb
  unfold patternConfidence
  have hmin : (0:ℚ) ≤ (if c > 1 then min 0.1 ((c : ℚ) * 0.02) else 0) ∧
      (if c > 1 then min 0.1 ((c : ℚ) * 0.02) else 0) ≤ 0.1 := by
    split
    · exact ⟨le_min (by norm_num) (by positivity), min_le_left _ _⟩
    · norm_num
  have hif1 : (0:ℚ) ≤ (if s == "github_actions" &&
        strContains p.subcategory "workflow" then (0.05:ℚ) else 0) ∧
      (if s == "github_actions" && strContains p.subcategory "workflow"
        then (0.05:ℚ) else 0) ≤ 0.05 := by
    split <;> norm_num
  have hif2 : (0:ℚ) ≤ (if s == "kubernetes" &&
        strContains p.subcategory "pod" then (0.05:ℚ) else 0) ∧
      (if s == "kubernetes" && strContains p.subcategory "pod"
        then (0.05:ℚ) else 0) ≤ 0.05 := by
    split <;> norm_num
  constructor
  · linarith [hmin.1, hif1.1, hif2.1]
  · linarith [hmin.2, hif1.2, hif2.2]

/-- The best-candidate fold keeps the confidence component in `[0, 1]`. -/
theorem foldl_patternStep_conf_bounds (s : String) (t : List Char) :
    ∀ (ps : List ErrorPattern) (b : Option ErrorPattern × ℚ),
    (∀ p ∈ ps, 0 ≤ p.confidence_boost ∧ p.confidence_boost ≤ 0.2) →
    (b.1.isSome = true → 0 ≤ b.2 ∧ b.2 ≤ 1) →
    ((ps.foldl (patternStep s t) b).1.isSome = true →
      0 ≤ (ps.foldl (patternStep s t) b).2 ∧
        (ps.foldl (patternStep s t) b).2 ≤ 1) := by
  intro ps
  induction ps with
  | nil => intro b _ hb; simpa using hb
  | cons p rest ih =>
    intro b hps hb
    rw [List.foldl_cons]
    apply ih _ (fun q hq => hps q (List.mem_cons_of_mem _ hq))
    unfold patternStep
    split
    · split
      · intro _
        exact patternConfidence_bounds s p _ (hps p (List.mem_cons_self _ _))
      · exact hb
    · exact hb

/-- Pattern-match confidences lie in `[0, 1]`. -/
theorem pattern_match_analysis_conf_bounds (source text : String)
    (r : PatternResult) (h : pattern_match_analysis source text = some r) :
    0 ≤ r.confidence ∧ r.confidence ≤ 1 := by
  simp only [pattern_match_analysis] at h
  have hinv := foldl_patternStep_conf_bounds source (lc text) error_patterns
    (none, 0) error_patterns_boost_bounds (by simp)
  rcases hfold : error_patterns.foldl (patternStep source (lc text)) (none, 0)
    with ⟨o, q⟩
  rw [hfold] at h hinv
  cases o with
  | none => simp at h
  | some p =>
    have hq := hinv (by simp)
    simp only at h
    have : r = ⟨p.category, p.subcategory, p.fixability, q⟩ := by
      simpa using h.symm
    rw [this]
    exact hq

/-- The fallback confidences (0.6 / 0.55 / 0.5 / 0.45 / 0.3) lie in
`[0, 1]`. -/
theorem create_fallback_analysis_conf_bounds (inc : IncidentEvent) :
    0 ≤ (create_fallback_analysis inc).confidence ∧
      (create_fallback_analysis inc).confidence ≤ 1 := by
  simp only [create_fallback_analysis, fallback_keyword_class]
  split_ifs <;> norm_num

/-- Fusion keeps the final confidence in `[0, 1]` whenever its inputs are. -/
theorem combine_analyses_conf_bounds (inc : IncidentEvent)
    (pm : Option PatternResult) (la : Option LlmAnalysisResult)
    (hpm : ∀ x ∈ pm, 0 ≤ x.confidence ∧ x.confidence ≤ 1)
    (hla : ∀ y ∈ la, 0 ≤ y.confidence ∧ y.confidence ≤ 1) :
    0 ≤ (combine_analyses inc pm la).confidence ∧
      (combine_analyses inc pm la).confidence ≤ 1 := by
  cases pm with
  | none =>
    cases la with
    | none => exact create_fallback_analysis_conf_bounds inc
    | some y =>
      have := hla y (by simp)
      simpa [combine_analyses] using this
  | some x =>
    cases la with
    | none =>
      have := hpm x (by simp)
      simpa [combine_analyses] using this
    | some y =>
      have hx := hpm x (by simp)
      have hy := hla y (by simp)
      simp only [combine_analyses]
      split
      · constructor
        · exact le_min (by nlinarith [hx.1, hy.1]) (by norm_num)
        · exact min_le_right _ _
      · constructor
        · nlinarith [hy.1]
        · nlinarith [hy.2]

/-- Social-proof scores are normalized into `[0, 1]`. -/
theorem calculate_social_proof_bounds (tc cc : Nat) (admin : Bool) :
    0 ≤ calculate_social_proof tc cc admin ∧
      calculate_social_proof tc cc admin ≤ 1 := by
  unfold calculate_social_proof
  constructor
  · apply le_min _ (by norm_num)
    have h1 : (0:ℚ) ≤ min ((tc : ℚ) * 2) 20 := le_min (by positivity) (by norm_num)
    have h2 : (0:ℚ) ≤ min ((cc : ℚ) * 5) 25 := le_min (by positivity) (by norm_num)
    have h3 : (0:ℚ) ≤ (if admin then (15:ℚ) else 0) := by split <;> norm_num
    have : (0:ℚ) ≤ 10 + min ((tc : ℚ) * 2) 20 + (if admin then (15:ℚ) else 0)
        + min ((cc : ℚ) * 5) 25 := by linarith
    positivity
  · exact min_le_right _ _

/-- Chat-derived candidates have confidence in `[0.9, 0.98] ⊆ [0, 1]` for
non-negative social-proof and relevance scores. -/
theorem slack_to_candidate_conf_bounds (s : SlackSolution)
    (h1 : 0 ≤ s.social_proof_score) (h2 : 0 ≤ s.relevance_score) :
    ∀ c ∈ slack_to_candidate s, 0 ≤ c.confidence ∧ c.confidence ≤ 1 := by
  intro c hc
  simp only [slack_to_candidate, Option.mem_def, Option.some.injEq] at hc
  subst hc
  simp only [confidence_baseline]
  constructor
  · exact le_min (by nlinarith) (by norm_num)
  · exact le_trans (min_le_right _ _) (by norm_num)

/-- Similarity-derived candidates have confidence in `[0.58, 0.95]` for
similarity and success rate in `[0, 1]`. -/
theorem vector_to_candidate_conf_bounds (env : Option String)
    (v : VectorSearchResult)
    (hs : 0 ≤ v.similarity_score ∧ v.similarity_score ≤ 1)
    (hr : 0 ≤ v.success_rate ∧ v.success_rate ≤ 1) :
    ∀ c ∈ vector_to_candidate env v, 0 ≤ c.confidence ∧ c.confidence ≤ 1 := by
  intro c hc
  simp only [vector_to_candidate, Option.mem_def, Option.some.injEq] at hc
  subst hc
  simp only [confidence_baseline]
  constructor
  · exact le_min (by nlinarith [hs.1, hr.1]) (by norm_num)
  · exact le_trans (min_le_right _ _) (by norm_num)

/-- Reuse-boosted cached confidences are capped into `[0.65, 0.95]`. -/
theorem cached_llm_confidence_bounds (sim succ : ℚ)
    (hs : 0 ≤ sim ∧ sim ≤ 1) (hr : 0 ≤ succ ∧ succ ≤ 1) :
    0 ≤ cached_llm_confidence sim succ ∧ cached_llm_confidence sim succ ≤ 1 := by
  unfold cached_llm_confidence confidence_baseline
  constructor
  · exact le_min (by nlinarith [hs.1, hr.1]) (by norm_num)
  · exact le_trans (min_le_right _ _) (by norm_num)

/-- Model-generated candidates have confidence in `[0, 0.65]` whenever the
self-reported confidence is non-negative. -/
theorem llm_to_candidate_conf_bounds (incident_id : String)
    (s : LlmSolutionDict) (conf : ℚ) (hc : s.confidence = some conf)
    (h0 : 0 ≤ conf) :
    ∀ c ∈ llm_to_candidate incident_id s,
      0 ≤ c.confidence ∧ c.confidence ≤ 1 := by
  intro c hmem
  rcases s with ⟨d, st, cf, du⟩
  simp only at hc
  subst hc
  rcases d with _ | d
  · simp [llm_to_candidate] at hmem
  · rcases st with _ | st
    · simp [llm_to_candidate] at hmem
    · rcases du with _ | du
      · simp [llm_to_candidate] at hmem
      · simp only [llm_to_candidate, Option.mem_def, Option.some.injEq] at hmem
        subst hmem
        simp only [confidence_baseline]
        exact ⟨le_min (by norm_num) (le_min h0 (by norm_num)),
          le_trans (min_le_left _ _) (by norm_num)⟩

/-- Confidence clamping in the model-response parser. -/
theorem parse_llm_response_confidence_bounds (raw : ℚ) :
    0 ≤ parse_llm_response_confidence raw ∧
      parse_llm_response_confidence raw ≤ 1 := by
  unfold parse_llm_response_confidence
  split
  · next h => exact h
  · exact ⟨le_max_left _ _, max_le (by norm_num) (min_le_left _ _)⟩

/-- Detailed-log boost bounds. -/
theorem llm_analysis_boosted_confidence_bounds (c : ℚ) (h : 0 ≤ c) :
    0 ≤ llm_analysis_boosted_confidence c ∧
      llm_analysis_boosted_confidence c ≤ 1 := by
  unfold llm_analysis_boosted_confidence
  exact ⟨le_min (by norm_num) (by linarith),
    le_trans (min_le_left _ _) (by norm_num)⟩

/-- C5 (amended): every confidence produced by the analysis and retrieval
paths lies in `[0, 1]` — pattern matching, model-response parsing (which
clamps), the detailed-log boost, fusion, social proof, and the chat /
similarity / cached conversions all guarantee it outright — except the
model-solution conversion `_llm_to_candidate`, which caps only from above:
its output lies in `[0, 1]` only under the additional hypothesis that the
model's self-reported confidence is non-negative. -/
theorem claim_C5_amended :
    (∀ (source text : String) (r : PatternResult),
      pattern_match_analysis source text = some r →
      0 ≤ r.confidence ∧ r.confidence ≤ 1) ∧
    (∀ raw : ℚ, 0 ≤ parse_llm_response_confidence raw ∧
      parse_llm_response_confidence raw ≤ 1) ∧
    (∀ c : ℚ, 0 ≤ c → 0 ≤ llm_analysis_boosted_confidence c ∧
      llm_analysis_boosted_confidence c ≤ 1) ∧
    (∀ (inc : IncidentEvent) (pm : Option PatternResult)
       (la : Option LlmAnalysisResult),
      (∀ x ∈ pm, 0 ≤ x.confidence ∧ x.confidence ≤ 1) →
      (∀ y ∈ la, 0 ≤ y.confidence ∧ y.confidence ≤ 1) →
      0 ≤ (combine_analyses inc pm la).confidence ∧
        (combine_analyses inc pm la).confidence ≤ 1) ∧
    (∀ (tc cc : Nat) (admin : Bool),
      0 ≤ calculate_social_proof tc cc admin ∧
        calculate_social_proof tc cc admin ≤ 1) ∧
    (∀ s : SlackSolution, 0 ≤ s.social_proof_score → 0 ≤ s.relevance_score →
      ∀ c ∈ slack_to_candidate s, 0 ≤ c.confidence ∧ c.confidence ≤ 1) ∧
    (∀ (env : Option String) (v : VectorSearchResult),
      0 ≤ v.similarity_score ∧ v.similarity_score ≤ 1 →
      0 ≤ v.success_rate ∧ v.success_rate ≤ 1 →
      ∀ c ∈ vector_to_candidate env v,
        0 ≤ c.confidence ∧ c.confidence ≤ 1) ∧
    (∀ sim succ : ℚ, 0 ≤ sim ∧ sim ≤ 1 → 0 ≤ succ ∧ succ ≤ 1 →
      0 ≤ cached_llm_confidence sim succ ∧
        cached_llm_confidence sim succ ≤ 1) ∧
    (∀ (incident_id : String) (s : LlmSolutionDict) (conf : ℚ),
      s.confidence = some conf → 0 ≤ conf →
      ∀ c ∈ llm_to_candidate incident_id s,
        0 ≤ c.confidence ∧ c.confidence ≤ 1) :=
  ⟨pattern_match_analysis_conf_bounds,
   parse_llm_response_confidence_bounds,
   llm_analysis_boosted_confidence_bounds,
   combine_analyses_conf_bounds,
   calculate_social_proof_bounds,
   slack_to_candidate_conf_bounds,
   vector_to_candidate_conf_bounds,
   cached_llm_confidence_bounds,
   llm_to_candidate_conf_bounds⟩

/-- Confidence bound transported through the optional conversion result. -/
theorem optionConf_getD_bounds (o : Option ResolutionCandidate)
    (h : ∀ c ∈ o, 0 ≤ c.confidence ∧ c.confidence ≤ 1) :
    0 ≤ ((o.map fun c => c.confidence).getD 0) ∧
      ((o.map fun c => c.confidence).getD 0) ≤ 1 := by
  cases o with
  | none => simp
  | some c => simpa using h c rfl

/-- Chat solution used in concrete confidence scenarios. -/
def slackSol : SlackSolution :=
  { message_id := "m1", channel := "devops", author := "alex", timestamp := 3,
    solution_text := "we fixed it by rolling back", code_blocks := ["kubectl apply"],
    thread_context := [], social_proof_score := 0.5, relevance_score := 20 }

/-- Well-formed model-solution dict with confidence 0.7. -/
def goodLlmDict : LlmSolutionDict :=
  { description := some "retry", steps := some ["retry the workflow"],
    confidence := some 0.7, estimated_duration := some 5 }

/-- Witness for the amended C5 claim at concrete inputs on every path. -/
theorem claim_C5_amended_witness :
    (0 ≤ (PatternResult.confidence ⟨.resource, "memory_limit", .auto, 0.79⟩) ∧
      (PatternResult.confidence ⟨.resource, "memory_limit", .auto, 0.79⟩) ≤ 1) ∧
    (0 ≤ parse_llm_response_confidence 1.5 ∧
      parse_llm_response_confidence 1.5 ≤ 1) ∧
    (0 ≤ llm_analysis_boosted_confidence 0.7 ∧
      llm_analysis_boosted_confidence 0.7 ≤ 1) ∧
    (0 ≤ (combine_analyses oomIncident none none).confidence ∧
      (combine_analyses oomIncident none none).confidence ≤ 1) ∧
    (0 ≤ calculate_social_proof 3 2 true ∧
      calculate_social_proof 3 2 true ≤ 1) ∧
    (0 ≤ (((slack_to_candidate slackSol).map fun c => c.confidence).getD 0) ∧
      (((slack_to_candidate slackSol).map fun c => c.confidence).getD 0) ≤ 1) ∧
    (0 ≤ (((vector_to_candidate none v0).map fun c => c.confidence).getD 0) ∧
      (((vector_to_candidate none v0).map fun c => c.confidence).getD 0) ≤ 1) ∧
    (0 ≤ cached_llm_confidence 0.8 1 ∧ cached_llm_confidence 0.8 1 ≤ 1) ∧
    (0 ≤ (((llm_to_candidate "i" goodLlmDict).map fun c => c.confidence).getD 0) ∧
      (((llm_to_candidate "i" goodLlmDict).map fun c => c.confidence).getD 0)
        ≤ 1) := by
  refine ⟨claim_C5_amended.1 "webhook" "OOMKilled" _ pattern_match_oomkilled,
    claim_C5_amended.2.1 1.5,
    claim_C5_amended.2.2.1 0.7 (by norm_num),
    claim_C5_amended.2.2.2.1 oomIncident none none (by simp) (by simp),
    claim_C5_amended.2.2.2.2.1 3 2 true,
    optionConf_getD_bounds _ (claim_C5_amended.2.2.2.2.2.1 slackSol
      (by norm_num [slackSol]) (by norm_num [slackSol])),
    optionConf_getD_bounds _ (claim_C5_amended.2.2.2.2.2.2.1 none v0
      (by norm_num [v0]) (by norm_num [v0])),
    claim_C5_amended.2.2.2.2.2.2.2.1 0.8 1 (by norm_num) (by norm_num),
    optionConf_getD_bounds _ (claim_C5_amended.2.2.2.2.2.2.2.2 "i" goodLlmDict
      0.7 rfl (by norm_num))⟩

/-- The effectiveness history is non-empty after every update. -/
theorem update_knowledge_scores_ne_nil (kd0 : Option KnowledgeData)
    (score : ℚ) (success : Bool) :
    (update_knowledge_effectiveness kd0 score success).effectiveness_scores
      ≠ [] := by
  simp only [update_knowledge_effectiveness]
  split
  · next h =>
    rw [← List.length_pos]
    rw [lastN, List.length_drop]
    simp only [List.length_append, List.length_singleton] at h ⊢
    omega
  · simp

/-- A positive-size suffix of a non-empty list is non-empty. -/
theorem lastN_ne_nil_of_ne_nil (n : Nat) (hn : 0 < n) (xs : List ℚ)
    (h : xs ≠ []) : lastN n xs ≠ [] := by
  rw [← List.length_pos] at h ⊢
  rw [lastN, List.length_drop]
  omega

/-- C8 (amended): once a solution's usage count reaches the minimum sample
size and the mean of its most recent 20 effectiveness scores falls below
the deprecation threshold, `_check_solution_deprecation` flags it as
deprecated.  The "excluded from future candidate scoring" half of the
original claim does not hold: no scoring or selection path consults the
deprecation table (`should_deprecate_solution` has no callers), see the
counterexample. -/
theorem claim_C8_amended :
    ∀ (kd0 : Option KnowledgeData) (score : ℚ) (success : Bool),
    min_sample_size ≤
      (update_knowledge_effectiveness kd0 score success).total_uses →
    listMean (lastN 20
        (update_knowledge_effectiveness kd0 score success).effectiveness_scores)
      < deprecation_threshold →
    (check_solution_deprecation
      (update_knowledge_effectiveness kd0 score success)).deprecated = true := by
  intro kd0 score success h1 h2
  have hne : lastN 20 (update_knowledge_effectiveness kd0 score
      success).effectiveness_scores ≠ [] :=
    lastN_ne_nil_of_ne_nil 20 (by norm_num) _
      (update_knowledge_scores_ne_nil kd0 score success)
  simp only [check_solution_deprecation]
  rw [if_neg (by omega), if_neg hne, if_pos h2]

/-- Knowledge entry with ten uses, all with effectiveness 0.1. -/
def c8Base : KnowledgeData :=
  { total_uses := 10, successful_uses := 0,
    effectiveness_scores := List.replicate 10 0.1, deprecated := false }

/-- The state after one more failing use of the `c8Base` solution. -/
theorem c8_update_eq :
    update_knowledge_effectiveness (some c8Base) 0.1 false =
      { total_uses := 11, successful_uses := 0,
        effectiveness_scores := List.replicate 11 0.1,
        deprecated := false } := by
  simp only [update_knowledge_effectiveness, c8Base, Option.getD_some]
  rw [← List.replicate_succ' 10 (0.1 : ℚ)]
  simp

/-- Witness for the amended C8 claim: eleven uses with mean effectiveness
0.1 < 0.3 flag the solution as deprecated. -/
theorem claim_C8_amended_witness :
    (check_solution_deprecation
      (update_knowledge_effectiveness (some c8Base) 0.1 false)).deprecated
      = true := by
  apply claim_C8_amended (some c8Base) 0.1 false
  · rw [c8_update_eq]
    simp [min_sample_size]
  · rw [c8_update_eq]
    simp only [lastN, listMean, List.length_replicate]
    rw [List.drop_replicate]
    simp [List.sum_replicate, deprecation_threshold]
    norm_num

/-- Candidate corresponding to the deprecated solution (`source = slack`,
`resolution_id = "r1"`, deprecation key `"slack_r1"`). -/
def deprecatedCand : ResolutionCandidate :=
  { resolution_id := "r1", source := .slack, description := "stale fix",
    steps := ["apply the stale fix"], confidence := 0.95, success_rate := 0.95,
    last_used := none, environment_match := true, code_changes := [],
    estimated_duration := 5 }

/-- C8 counterexample: the very solution the feedback system flags as
deprecated is still selected by `_select_resolution` for an auto-fixable
development incident — candidate scoring takes no deprecation state at all
(`should_deprecate_solution` is never called), so deprecated solutions are
not excluded from future candidate scoring. -/
theorem claim_C8_counterexample :
    (check_solution_deprecation
      (update_knowledge_effectiveness (some c8Base) 0.1 false)).deprecated
      = true ∧
    select_resolution (some "development") autoAnalysis [deprecatedCand] =
      some deprecatedCand := by
  constructor
  · rw [c8_update_eq]
    have hne : List.replicate 11 (0.1:ℚ) ≠ [] := by simp
    simp only [check_solution_deprecation]
    rw [if_neg (by simp [min_sample_size])]
    rw [if_neg (by
      simp only [lastN, List.length_replicate]
      rw [List.drop_replicate]
      simp)]
    rw [if_pos (by
      simp only [lastN, listMean, List.length_replicate]
      rw [List.drop_replicate]
      simp [List.sum_replicate, deprecation_threshold]
      norm_num)]
  · have hth : get_min_confidence_threshold (some "development") = 0.75 := rfl
    have hcond : (decide (get_min_confidence_threshold (some "development") ≤
        deprecatedCand.confidence) &&
        decide (autoAnalysis.fixability = .auto)) = true := by
      rw [hth]
      have h1 : (0.75 : ℚ) ≤ deprecatedCand.confidence := by
        norm_num [deprecatedCand]
      simp [h1, autoAnalysis]
    simp only [select_resolution]
    rw [List.filter_cons, if_pos hcond, List.filter_nil]
    rfl

/-- C9: the calibration window stays bounded to the last 100 pairs, and
whenever the window holds at least `min_sample_size` samples after an
update, the stored adjustment equals
`(mean_actual - mean_predicted) * learning_rate`. -/
theorem claim_C9_calibration_adjustment :
    ∀ (cd0 : Option CalibrationData) (p a : ℚ),
    ((update_confidence_calibration cd0 p a).predictions.length ≤ 100) ∧
    (min_sample_size ≤ (update_confidence_calibration cd0 p a).predictions.length →
      (update_confidence_calibration cd0 p a).adjustment =
        (listMean (update_confidence_calibration cd0 p a).outcomes -
          listMean (update_confidence_calibration cd0 p a).predictions) *
          learning_rate) := by
  intro cd0 p a
  simp only [update_confidence_calibration]
  constructor
  · split_ifs <;> dsimp only <;>
      first
        | (rw [lastN, List.length_drop]; omega)
        | omega
  · intro h
    split_ifs at h ⊢ <;> dsimp only at h ⊢ <;> first | rfl | omega

/-- Calibration entry holding nine samples: predictions all 0.85, five
successes and four failures so far. -/
def c9Prev : CalibrationData :=
  { predictions := List.replicate 9 0.85,
    outcomes := [1, 1, 1, 1, 1, 0, 0, 0, 0], adjustment := 0 }

/-- The tenth sample's effect on the window. -/
theorem c9_update_eq :
    update_confidence_calibration (some c9Prev) 0.85 1 =
      { predictions := List.replicate 10 0.85,
        outcomes := [1, 1, 1, 1, 1, 0, 0, 0, 0, 1],
        adjustment := (listMean [1, 1, 1, 1, 1, 0, 0, 0, 0, 1] -
          listMean (List.replicate 10 0.85)) * learning_rate } := by
  simp only [update_confidence_calibration, c9Prev, Option.getD_some]
  rw [← List.replicate_succ' 9 (0.85 : ℚ)]
  norm_num [min_sample_size]

/-- Witness for C9: ten samples with mean predicted 0.85 and mean actual
0.60 (six successes, four failures) yield adjustment
`(0.60 - 0.85) * 0.1 = -0.025`. -/
theorem claim_C9_calibration_adjustment_witness :
    (update_confidence_calibration (some c9Prev) 0.85 1).adjustment
      = -(1/40) := by
  have hlen : min_sample_size ≤
      (update_confidence_calibration (some c9Prev) 0.85 1).predictions.length := by
    rw [c9_update_eq]
    simp [min_sample_size]
  rw [(claim_C9_calibration_adjustment (some c9Prev) 0.85 1).2 hlen,
    c9_update_eq]
  simp only [listMean, List.sum_replicate, List.length_replicate]
  norm_num [learning_rate]
